import Mathlib

/-!
Shallow embedding of the webrtcvad-go voice activity detector.

Go machine integers are modelled as `Int` with explicit two's-complement
wrapping (`i16`, `i32`) and unsigned reduction (`u32`) applied exactly where
the Go source performs arithmetic at the corresponding width.  Go's arithmetic
right shift on signed values is floor division by a power of two (`sar`);
Go slices of int16/int32 are `List Int` with out-of-range reads defaulting
to 0 (never exercised on the in-range inputs considered here).
-/

namespace Webrtcvad

/-- Two's-complement wrap to a signed 16-bit value, as Go int16 arithmetic. -/
def i16 (x : Int) : Int := (x + 32768) % 65536 - 32768

/-- Two's-complement wrap to a signed 32-bit value, as Go int32 arithmetic. -/
def i32 (x : Int) : Int := (x + 2147483648) % 4294967296 - 2147483648

/-- Reduction to an unsigned 32-bit value, as Go uint32 arithmetic. -/
def u32 (x : Int) : Int := x % 4294967296

/-- Arithmetic right shift (Go `>>` on signed values). -/
def sar (x : Int) (n : Nat) : Int := x / (2 ^ n : Int)

/-- Slice read (in-range on all considered inputs). -/
def lget (l : List Int) (i : Nat) : Int := l.getD i 0

/-- Slice write. -/
def lset (l : List Int) (i : Nat) (v : Int) : List Int := l.set i v

/-- Read from a nested coefficient table. -/
def lget2 (l : List (List Int)) (i j : Nat) : Int := lget (l.getD i []) j

/-- Interleave two equal-length lists, first list first. -/
def interleave : List Int → List Int → List Int
  | [], bs => bs
  | a :: as, [] => a :: as
  | a :: as, b :: bs => a :: b :: interleave as bs

/-! ## Constants from vad_core.go -/

def kNumChannels : Nat := 6
def kNumGaussians : Nat := 2
def kTableSize : Nat := kNumChannels * kNumGaussians
def kMinEnergy : Int := 10
def kInitCheck : Int := 42
def kMaxSpeechFrames : Int := 6
def kMinStd : Int := 384

def kSpectrumWeight : List Int := [6, 8, 10, 12, 14, 16]
def kNoiseUpdateConst : Int := 655
def kSpeechUpdateConst : Int := 6554
def kBackEta : Int := 154
def kMinimumDifference : List Int := [544, 544, 576, 576, 576, 576]
def kMaximumSpeech : List Int := [11392, 11392, 11520, 11520, 11520, 11520]
def kMinimumMean : List Int := [640, 768]
def kMaximumNoise : List Int := [9216, 9088, 8960, 8832, 8704, 8576]

def kNoiseDataWeights : List Int :=
  [34, 62, 72, 66, 53, 25, 94, 66, 56, 62, 75, 103]
def kSpeechDataWeights : List Int :=
  [48, 82, 45, 87, 50, 47, 80, 46, 83, 41, 78, 81]
def kNoiseDataMeans : List Int :=
  [6738, 4892, 7065, 6715, 6771, 3369, 7646, 3863, 7820, 7266, 5020, 4362]
def kSpeechDataMeans : List Int :=
  [8306, 10085, 10078, 11823, 11843, 6309, 9473, 9571, 10879, 7581, 8180, 7483]
def kNoiseDataStds : List Int :=
  [378, 1064, 493, 582, 688, 593, 474, 697, 475, 688, 421, 455]
def kSpeechDataStds : List Int :=
  [555, 505, 567, 524, 585, 1231, 509, 828, 492, 1540, 1079, 850]

def kOverHangMax1Q : List Int := [8, 4, 3]
def kOverHangMax2Q : List Int := [14, 7, 5]
def kLocalThresholdQ : List Int := [24, 21, 24]
def kGlobalThresholdQ : List Int := [57, 48, 57]
def kOverHangMax1LBR : List Int := [8, 4, 3]
def kOverHangMax2LBR : List Int := [14, 7, 5]
def kLocalThresholdLBR : List Int := [37, 32, 37]
def kGlobalThresholdLBR : List Int := [100, 80, 100]
def kOverHangMax1AGG : List Int := [6, 3, 2]
def kOverHangMax2AGG : List Int := [9, 5, 3]
def kLocalThresholdAGG : List Int := [82, 78, 82]
def kGlobalThresholdAGG : List Int := [285, 260, 285]
def kOverHangMax1VAG : List Int := [6, 3, 2]
def kOverHangMax2VAG : List Int := [9, 5, 3]
def kLocalThresholdVAG : List Int := [94, 94, 94]
def kGlobalThresholdVAG : List Int := [1100, 1050, 1100]

/-! ## spl.go helpers -/

/-- Number of significant bits, with enough fuel for 32-bit values. -/
def bitLen : Nat → Nat → Nat
  | 0, _ => 0
  | fuel + 1, n => if n = 0 then 0 else bitLen fuel (n / 2) + 1

/-- `bits.LeadingZeros32` on a nonnegative 32-bit value. -/
def leadingZeros32 (n : Nat) : Int := 32 - Int.ofNat (bitLen 32 n)

/-- `normW32`: leading-zero count used as a normalization measure (spl.go). -/
def normW32 (a : Int) : Int :=
  if a = 0 then 0
  else
    let ua : Int := if a < 0 then u32 (-a - 1) else a
    let zeros : Int := leadingZeros32 ua.toNat
    if a < 0 ∧ zeros = 32 then 31 else zeros

/-- `normU32`: leading-zero count of a uint32, 0 for 0 (spl.go). -/
def normU32 (a : Int) : Int :=
  if a = 0 then 0 else leadingZeros32 a.toNat

/-- `divW32W16`: sign-extracted 32-by-16-bit division, saturating on a zero
denominator (spl.go). -/
def divW32W16 (num den : Int) : Int :=
  if den = 0 then 0x7FFFFFFF
  else
    let sign1 : Int := if num < 0 then -1 else 1
    let sign2 : Int := if den < 0 then -sign1 else sign1
    (sign2 * ((num.natAbs : Int) / (den.natAbs : Int)))

/-- `calculateEnergy` (spl.go): 4-way unrolled sum of squares with an overflow
guard applied once per unrolled block, then per sample on the remainder.
`energy` is a uint32 accumulator; returns `(energy, scaleFactor)`.
The first component of the result triple is the loop index reached. -/
def ceGuard (energy : Int) (scaleFactor : Int) : Int × Int :=
  if energy > 0x40000000 then (energy / 2, scaleFactor + 1) else (energy, scaleFactor)

def ceUnrolled (v : List Int) (n : Nat) : Nat → Int → Int → Nat → (Nat × Int × Int)
  | i, energy, sc, 0 => (i, energy, sc)
  | i, energy, sc, fuel + 1 =>
    if i + 3 < n then
      let tmp0 := lget v i
      let tmp1 := lget v (i + 1)
      let tmp2 := lget v (i + 2)
      let tmp3 := lget v (i + 3)
      let sq := i32 (i32 (i32 (i32 (tmp0 * tmp0) + i32 (tmp1 * tmp1)) +
        i32 (tmp2 * tmp2)) + i32 (tmp3 * tmp3))
      let energy := u32 (energy + u32 sq)
      let (energy, sc) := ceGuard energy sc
      ceUnrolled v n (i + 4) energy sc fuel
    else (i, energy, sc)

def ceTail (v : List Int) (n : Nat) : Nat → Int → Int → Nat → (Int × Int)
  | _, energy, sc, 0 => (energy, sc)
  | i, energy, sc, fuel + 1 =>
    if i < n then
      let tmp := lget v i
      let energy := u32 (energy + u32 (i32 (tmp * tmp)))
      let (energy, sc) := ceGuard energy sc
      ceTail v n (i + 1) energy sc fuel
    else (energy, sc)

def calculateEnergy (v : List Int) (vectorLength : Nat) : Int × Int :=
  let (i, energy, sc) := ceUnrolled v vectorLength 0 0 0 vectorLength
  ceTail v vectorLength i energy sc vectorLength

/-! ## ValidRateAndFrameLength (public API) -/

def validRates : List Int := [8000, 16000, 32000, 48000]

/-- Inner loop of `ValidRateAndFrameLength`: frame lengths of 10, 20, 30 ms. -/
def frameLengthOk (rate frameLength : Int) : Bool :=
  [10, 20, 30].any (fun ms => frameLength == rate * ms / 1000)

/-- `ValidRateAndFrameLength` from the public API: the outer loop scans the
valid rates and breaks at the first match. -/
def ValidRateAndFrameLength (rate frameLength : Int) : Bool :=
  match validRates.find? (fun r => r == rate) with
  | some r => frameLengthOk r frameLength
  | none => false

/-! ## weightedAverage (vad_gmm driver) -/

/-- `weightedAverage`: adds `offset` to slot `k * kNumChannels` of `data` for
each Gaussian `k` and accumulates the weighted sum of the mutated slots; the
mutated slice is returned alongside the sum. -/
def weightedAverage (data : List Int) (offset : Int) (weights : List Int) :
    Int × List Int :=
  let idx0 := 0 * kNumChannels
  let data0 := lset data idx0 (i16 (lget data idx0 + offset))
  let wa0 := i32 (0 + i32 (lget data0 idx0 * lget weights idx0))
  let idx1 := 1 * kNumChannels
  let data1 := lset data0 idx1 (i16 (lget data0 idx1 + offset))
  let wa1 := i32 (wa0 + i32 (lget data1 idx1 * lget weights idx1))
  (wa1, data1)

/-! ## Detector state (vad_core.go) -/

structure VadInst where
  vad : Int
  downsamplingFilterStates : List Int
  s48_24 : List Int
  s24_24 : List Int
  s24_16 : List Int
  s16_8 : List Int
  noiseMeans : List Int
  speechMeans : List Int
  noiseStds : List Int
  speechStds : List Int
  frameCounter : Int
  overHang : Int
  numOfSpeech : Int
  indexVector : List Int
  lowValueVector : List Int
  meanValue : List Int
  upperState : List Int
  lowerState : List Int
  hpFilterState : List Int
  overHangMax1 : List Int
  overHangMax2 : List Int
  individual : List Int
  total : List Int
  initFlag : Int
deriving Repr, DecidableEq

/-- `createVadInst`: zero value with `initFlag = 0`. -/
def createVadInst : VadInst :=
  { vad := 0
    downsamplingFilterStates := List.replicate 4 0
    s48_24 := List.replicate 8 0
    s24_24 := List.replicate 16 0
    s24_16 := List.replicate 8 0
    s16_8 := List.replicate 8 0
    noiseMeans := List.replicate 12 0
    speechMeans := List.replicate 12 0
    noiseStds := List.replicate 12 0
    speechStds := List.replicate 12 0
    frameCounter := 0
    overHang := 0
    numOfSpeech := 0
    indexVector := List.replicate 96 0
    lowValueVector := List.replicate 96 0
    meanValue := List.replicate 6 0
    upperState := List.replicate 5 0
    lowerState := List.replicate 5 0
    hpFilterState := List.replicate 4 0
    overHangMax1 := List.replicate 3 0
    overHangMax2 := List.replicate 3 0
    individual := List.replicate 3 0
    total := List.replicate 3 0
    initFlag := 0 }

/-- `setModeCore`: selects a threshold table for modes 0..3, errors otherwise. -/
def setModeCore (self : VadInst) (mode : Int) : Option VadInst :=
  if mode = 0 then
    some { self with overHangMax1 := kOverHangMax1Q, overHangMax2 := kOverHangMax2Q,
                     individual := kLocalThresholdQ, total := kGlobalThresholdQ }
  else if mode = 1 then
    some { self with overHangMax1 := kOverHangMax1LBR, overHangMax2 := kOverHangMax2LBR,
                     individual := kLocalThresholdLBR, total := kGlobalThresholdLBR }
  else if mode = 2 then
    some { self with overHangMax1 := kOverHangMax1AGG, overHangMax2 := kOverHangMax2AGG,
                     individual := kLocalThresholdAGG, total := kGlobalThresholdAGG }
  else if mode = 3 then
    some { self with overHangMax1 := kOverHangMax1VAG, overHangMax2 := kOverHangMax2VAG,
                     individual := kLocalThresholdVAG, total := kGlobalThresholdVAG }
  else none

/-- `initCore`: initializes the detector and sets mode 0. -/
def initCore (self : VadInst) : Option VadInst :=
  let s :=
    { self with
      vad := 1
      frameCounter := 0
      overHang := 0
      numOfSpeech := 0
      downsamplingFilterStates := List.replicate 4 0
      s48_24 := List.replicate 8 0
      s24_24 := List.replicate 16 0
      s24_16 := List.replicate 8 0
      s16_8 := List.replicate 8 0
      noiseMeans := kNoiseDataMeans
      speechMeans := kSpeechDataMeans
      noiseStds := kNoiseDataStds
      speechStds := kSpeechDataStds
      lowValueVector := List.replicate 96 10000
      indexVector := List.replicate 96 0
      upperState := List.replicate 5 0
      lowerState := List.replicate 5 0
      hpFilterState := List.replicate 4 0
      meanValue := List.replicate 6 1600 }
  match setModeCore s 0 with
  | some s2 => some { s2 with initFlag := kInitCheck }
  | none => none

/-! ## Filterbank (vad_filterbank.go) -/

def kLogConst : Int := 24660
def kLogEnergyIntPart : Int := 14336
def kHpZeroCoefs : List Int := [6631, -13262, 6631]
def kHpPoleCoefs : List Int := [16384, -7756, 5620]
def kAllPassCoefsQ15 : List Int := [20972, 5571]
def kOffsetVector : List Int := [368, 368, 272, 176, 176, 176]

/-- `highPassFilter` body: second-order biquad, state `(st0, st1, st2, st3)`. -/
def hpLoop : List Int → Int → Int → Int → Int → List Int × (Int × Int × Int × Int)
  | [], st0, st1, st2, st3 => ([], (st0, st1, st2, st3))
  | x :: rest, st0, st1, st2, st3 =>
    let tmp32 := i32 (lget kHpZeroCoefs 0 * x)
    let tmp32 := i32 (tmp32 + i32 (lget kHpZeroCoefs 1 * st0))
    let tmp32 := i32 (tmp32 + i32 (lget kHpZeroCoefs 2 * st1))
    let st1 := st0
    let st0 := x
    let tmp32 := i32 (tmp32 - i32 (lget kHpPoleCoefs 1 * st2))
    let tmp32 := i32 (tmp32 - i32 (lget kHpPoleCoefs 2 * st3))
    let st3 := st2
    let st2 := i16 (sar tmp32 14)
    let (outs, stf) := hpLoop rest st0 st1 st2 st3
    (st2 :: outs, stf)

/-- `highPassFilter` (vad_filterbank.go): 80 Hz high-pass, four int16 states. -/
def highPassFilter (dataIn : List Int) (dataLength : Nat) (filterState : List Int) :
    List Int × List Int :=
  let (outs, (st0, st1, st2, st3)) :=
    hpLoop (dataIn.take dataLength) (lget filterState 0) (lget filterState 1)
      (lget filterState 2) (lget filterState 3)
  (outs, [st0, st1, st2, st3])

/-- `allPassFilter` body: processes every second sample of `dataIn`. -/
def apLoop (dataIn : List Int) (filterCoefficient : Int) :
    Nat → Nat → Int → List Int × Int
  | 0, _, state32 => ([], state32)
  | k + 1, i, state32 =>
    let x := lget dataIn (i * 2)
    let tmp32 := i32 (state32 + filterCoefficient * x)
    let tmp16 := i16 (sar tmp32 16)
    let state32 := i32 (x * 16384 - filterCoefficient * tmp16)
    let state32 := i32 (state32 * 2)
    let (outs, stf) := apLoop dataIn filterCoefficient k (i + 1) state32
    (tmp16 :: outs, stf)

/-- `allPassFilter` (vad_filterbank.go): one-multiply all-pass on the even
samples of `dataIn`, int16 state held in Q(-1). -/
def allPassFilter (dataIn : List Int) (dataLength : Nat) (filterCoefficient : Int)
    (filterState : Int) : List Int × Int :=
  let (outs, stf) := apLoop dataIn filterCoefficient dataLength 0 (i32 (filterState * 65536))
  (outs, i16 (sar stf 16))

/-- `splitFilter` (vad_filterbank.go): quadrature split into high and low band
at half the sample rate. -/
def splitFilter (dataIn : List Int) (dataLength : Nat) (upperState lowerState : Int) :
    List Int × List Int × Int × Int :=
  let halfLength := dataLength / 2
  let (hp0, upperState) := allPassFilter dataIn halfLength (lget kAllPassCoefsQ15 0) upperState
  let (lp0, lowerState) :=
    allPassFilter (dataIn.drop 1) halfLength (lget kAllPassCoefsQ15 1) lowerState
  let hpOut := List.zipWith (fun h l => i16 (h - l)) hp0 lp0
  let lpOut := List.zipWith (fun h l => i16 (l + h)) hp0 lp0
  (hpOut, lpOut, upperState, lowerState)

/-- `logOfEnergy` (vad_filterbank.go): log-energy of a band in Q4 plus the
total-energy side accumulator; returns `(totalEnergy, logEnergy)`. -/
def logOfEnergy (dataIn : List Int) (dataLength : Nat) (offset : Int)
    (totalEnergy : Int) : Int × Int :=
  let (energy, totRshifts) := calculateEnergy dataIn dataLength
  if energy ≠ 0 then
    let normalizingRshifts := 17 - normU32 energy
    let log2Energy := kLogEnergyIntPart
    let totRshifts := totRshifts + normalizingRshifts
    let energy :=
      if normalizingRshifts < 0 then u32 (energy * 2 ^ (-normalizingRshifts).toNat)
      else energy / 2 ^ normalizingRshifts.toNat
    let log2Energy := i16 (log2Energy + (energy % 16384) / 16)
    let logEnergy := i16 (i16 (sar (i32 (kLogConst * log2Energy)) 19) +
      i16 (sar (i32 (totRshifts * kLogConst)) 9))
    let logEnergy := if logEnergy < 0 then 0 else logEnergy
    let logEnergy := i16 (logEnergy + offset)
    let totalEnergy :=
      if totalEnergy ≤ kMinEnergy then
        if totRshifts ≥ 0 then i16 (totalEnergy + (kMinEnergy + 1))
        else i16 (totalEnergy + i16 (energy / 2 ^ (-totRshifts).toNat))
      else totalEnergy
    (totalEnergy, logEnergy)
  else
    (totalEnergy, offset)

/-- `calculateFeatures` (vad_filterbank.go): six-band split tree feeding
`logOfEnergy`; returns the updated state, the features and the total energy. -/
def calculateFeatures (self : VadInst) (dataIn : List Int) (dataLength : Nat) :
    VadInst × List Int × Int :=
  let totalEnergy : Int := 0
  let halfDataLength := dataLength / 2
  let length := halfDataLength
  -- split at 2000 Hz
  let (hp120, lp120, u0, l0) :=
    splitFilter dataIn dataLength (lget self.upperState 0) (lget self.lowerState 0)
  -- split the upper band at 3000 Hz
  let (hp60, lp60, u1, l1) :=
    splitFilter hp120 length (lget self.upperState 1) (lget self.lowerState 1)
  let length := length / 2
  let (totalEnergy, f5) := logOfEnergy hp60 length (lget kOffsetVector 5) totalEnergy
  let (totalEnergy, f4) := logOfEnergy lp60 length (lget kOffsetVector 4) totalEnergy
  -- split the lower band at 1000 Hz
  let length := halfDataLength
  let (hp60b, lp60b, u2, l2) :=
    splitFilter lp120 length (lget self.upperState 2) (lget self.lowerState 2)
  let length := length / 2
  let (totalEnergy, f3) := logOfEnergy hp60b length (lget kOffsetVector 3) totalEnergy
  -- split at 500 Hz
  let (hp120b, lp120b, u3, l3) :=
    splitFilter lp60b length (lget self.upperState 3) (lget self.lowerState 3)
  let length := length / 2
  let (totalEnergy, f2) := logOfEnergy hp120b length (lget kOffsetVector 2) totalEnergy
  -- split at 250 Hz
  let (hp60c, lp60c, u4, l4) :=
    splitFilter lp120b length (lget self.upperState 4) (lget self.lowerState 4)
  let length := length / 2
  let (totalEnergy, f1) := logOfEnergy hp60c length (lget kOffsetVector 1) totalEnergy
  -- remove 0-80 Hz by high-pass filtering
  let (hp120c, hpState) := highPassFilter lp60c length self.hpFilterState
  let (totalEnergy, f0) := logOfEnergy hp120c length (lget kOffsetVector 0) totalEnergy
  ({ self with upperState := [u0, u1, u2, u3, u4], lowerState := [l0, l1, l2, l3, l4],
               hpFilterState := hpState },
   [f0, f1, f2, f3, f4, f5], totalEnergy)
/-! ## Gaussian probability (vad_gmm.go) -/

def kCompVar : Int := 22005
def kLog2Exp : Int := 5909

/-- `gaussianProbability` (vad_gmm.go): Q20 probability of `input` under a
normal distribution with Q7 `mean` and `std`; also returns `delta` (Q11). -/
def gaussianProbability (input mean std : Int) : Int × Int :=
  let tmp32 := i32 (131072 + sar std 1)
  let invStd := i16 (divW32W16 tmp32 std)
  let tmp16 := sar invStd 2
  let invStd2 := i16 (sar (i32 (tmp16 * tmp16)) 2)
  let tmp16 := i16 (input * 8)
  let tmp16 := i16 (tmp16 - mean)
  let delta := i16 (sar (i32 (invStd2 * tmp16)) 10)
  let tmp32 := sar (i32 (delta * tmp16)) 9
  let expValue : Int :=
    if tmp32 < kCompVar then
      -- 0x0400 | (t & 0x03FF) adds bit 10 to the low ten bits of the
      -- two's-complement value, i.e. 1024 + t mod 1024.
      let t := i16 (sar (i32 (kLog2Exp * tmp32)) 12)
      let t := i16 (-t)
      let ev := 1024 + t % 1024
      let t := i16 (-t - 1)
      let t := sar t 10
      let t := i16 (t + 1)
      -- Go shifts by uint(t): a negative count wraps to a huge shift,
      -- yielding 0 for the nonneg ev.
      if t < 0 then 0 else sar ev t.toNat
    else 0
  (i32 (invStd * expValue), delta)

/-! ## Minimum tracker (vad_sp.go) -/

def kSmoothingDown : Int := 6553
def kSmoothingUp : Int := 32439
def kAllPassCoefsQ13 : List Int := [5243, 1392]

/-- Ageing pass of `findMinimum`: each age is bumped; an entry of age 100 is
evicted, the larger entries slide down and a sentinel enters at the top. -/
def ageLoop (age smallestValues : List Int) : Nat → Nat → List Int × List Int
  | _, 0 => (age, smallestValues)
  | i, fuel + 1 =>
    if i < 16 then
      if lget age i ≠ 100 then
        ageLoop (lset age i (i16 (lget age i + 1))) smallestValues (i + 1) fuel
      else
        ageLoop (age.eraseIdx i ++ [101]) (smallestValues.eraseIdx i ++ [10000]) (i + 1) fuel
    else (age, smallestValues)

/-- Position search of `findMinimum`: the nested comparison cascade. -/
def findPosition (sv : List Int) (featureValue : Int) : Int :=
  if featureValue < lget sv 7 then
    if featureValue < lget sv 3 then
      if featureValue < lget sv 1 then
        if featureValue < lget sv 0 then 0 else 1
      else if featureValue < lget sv 2 then 2 else 3
    else if featureValue < lget sv 5 then
      if featureValue < lget sv 4 then 4 else 5
    else if featureValue < lget sv 6 then 6 else 7
  else if featureValue < lget sv 15 then
    if featureValue < lget sv 11 then
      if featureValue < lget sv 9 then
        if featureValue < lget sv 8 then 8 else 9
      else if featureValue < lget sv 10 then 10 else 11
    else if featureValue < lget sv 13 then
      if featureValue < lget sv 12 then 12 else 13
    else if featureValue < lget sv 14 then 14 else 15
  else -1

/-- Insertion step of `findMinimum`: shift the larger entries up and place the
new value at `position`. -/
def insertAt (l : List Int) (position : Nat) (v : Int) : List Int :=
  l.take position ++ v :: (l.drop position).take (15 - position)

/-- `findMinimum` (vad_sp.go): tracks the 16 smallest recent feature values per
channel and returns the smoothed median estimate; updates the per-channel
slices of `indexVector`, `lowValueVector` and `meanValue`. -/
def findMinimum (self : VadInst) (featureValue : Int) (channel : Nat) :
    Int × VadInst :=
  let offset := channel * 16
  let age := (self.indexVector.drop offset).take 16
  let smallestValues := (self.lowValueVector.drop offset).take 16
  let (age, smallestValues) := ageLoop age smallestValues 0 16
  let position := findPosition smallestValues featureValue
  let (age, smallestValues) :=
    if position > -1 then
      (insertAt age position.toNat 1, insertAt smallestValues position.toNat featureValue)
    else (age, smallestValues)
  let currentMedian : Int :=
    if self.frameCounter > 2 then lget smallestValues 2
    else if self.frameCounter > 0 then lget smallestValues 0
    else 1600
  let alpha : Int :=
    if self.frameCounter > 0 then
      if currentMedian < lget self.meanValue channel then kSmoothingDown
      else kSmoothingUp
    else 0
  let tmp32 := i32 (i32 ((alpha + 1) * lget self.meanValue channel) +
    i32 ((32767 - alpha) * currentMedian))
  let tmp32 := i32 (tmp32 + 16384)
  let newMean := i16 (sar tmp32 15)
  (newMean,
   { self with
     indexVector := self.indexVector.take offset ++ age ++ self.indexVector.drop (offset + 16)
     lowValueVector :=
       self.lowValueVector.take offset ++ smallestValues ++ self.lowValueVector.drop (offset + 16)
     meanValue := lset self.meanValue channel newMean })

/-! ## GMM probability and decision (vad_core driver, part of gmmProbability) -/

/-- Per-frame threshold selection at the top of `gmmProbability`. -/
def gmmThresholds (self : VadInst) (frameLength : Nat) : Int × Int × Int × Int :=
  if frameLength = 80 then
    (lget self.overHangMax1 0, lget self.overHangMax2 0, lget self.individual 0,
     lget self.total 0)
  else if frameLength = 160 then
    (lget self.overHangMax1 1, lget self.overHangMax2 1, lget self.individual 1,
     lget self.total 1)
  else
    (lget self.overHangMax1 2, lget self.overHangMax2 2, lget self.individual 2,
     lget self.total 2)

/-- Accumulated data of the first (likelihood) channel loop of
`gmmProbability`. -/
structure GmmPass1 where
  deltaN : List Int
  deltaS : List Int
  ngprvec : List Int
  sgprvec : List Int
  sumLogLikelihoodRatio : Int
  vadflag : Int
deriving Repr, DecidableEq

/-- One channel of the likelihood loop of `gmmProbability`. -/
def gmmPass1Channel (self : VadInst) (features : List Int) (individualTest : Int)
    (st : GmmPass1) (channel : Nat) : GmmPass1 :=
  -- Gaussian k = 0
  let g0 := channel
  let (p0n, d0n) := gaussianProbability (lget features channel)
    (lget self.noiseMeans g0) (lget self.noiseStds g0)
  let noiseProbability0 := i32 (lget kNoiseDataWeights g0 * p0n)
  let (p0s, d0s) := gaussianProbability (lget features channel)
    (lget self.speechMeans g0) (lget self.speechStds g0)
  let speechProbability0 := i32 (lget kSpeechDataWeights g0 * p0s)
  -- Gaussian k = 1
  let g1 := channel + kNumChannels
  let (p1n, d1n) := gaussianProbability (lget features channel)
    (lget self.noiseMeans g1) (lget self.noiseStds g1)
  let noiseProbability1 := i32 (lget kNoiseDataWeights g1 * p1n)
  let (p1s, d1s) := gaussianProbability (lget features channel)
    (lget self.speechMeans g1) (lget self.speechStds g1)
  let speechProbability1 := i32 (lget kSpeechDataWeights g1 * p1s)
  let h0Test := i32 (noiseProbability0 + noiseProbability1)
  let h1Test := i32 (speechProbability0 + speechProbability1)
  let deltaN := lset (lset st.deltaN g0 d0n) g1 d1n
  let deltaS := lset (lset st.deltaS g0 d0s) g1 d1s
  let shiftsH0 := if h0Test = 0 then 31 else normW32 h0Test
  let shiftsH1 := if h1Test = 0 then 31 else normW32 h1Test
  let logLikelihoodRatio := i16 (shiftsH0 - shiftsH1)
  let sumLLR := i32 (st.sumLogLikelihoodRatio +
    i32 (logLikelihoodRatio * lget kSpectrumWeight channel))
  let vadflag := if i16 (logLikelihoodRatio * 4) > individualTest then 1 else st.vadflag
  let h0 := i16 (sar h0Test 12)
  let ngprvec :=
    if h0 > 0 then
      let masked := u32 h0Test - u32 h0Test % 4096
      let tmp1S32 := i32 (i32 masked * 4)
      let v := i16 (divW32W16 tmp1S32 h0)
      lset (lset st.ngprvec channel v) (channel + kNumChannels) (i16 (16384 - v))
    else lset st.ngprvec channel 16384
  let h1 := i16 (sar h1Test 12)
  let sgprvec :=
    if h1 > 0 then
      let masked := u32 h1Test - u32 h1Test % 4096
      let tmp1S32 := i32 (i32 masked * 4)
      let v := i16 (divW32W16 tmp1S32 h1)
      lset (lset st.sgprvec channel v) (channel + kNumChannels) (i16 (16384 - v))
    else st.sgprvec
  { deltaN := deltaN, deltaS := deltaS, ngprvec := ngprvec, sgprvec := sgprvec,
    sumLogLikelihoodRatio := sumLLR, vadflag := vadflag }

/-- The full likelihood loop over the six channels. -/
def gmmPass1 (self : VadInst) (features : List Int) (individualTest : Int) : GmmPass1 :=
  (List.range kNumChannels).foldl (gmmPass1Channel self features individualTest)
    { deltaN := List.replicate 12 0, deltaS := List.replicate 12 0,
      ngprvec := List.replicate 12 0, sgprvec := List.replicate 12 0,
      sumLogLikelihoodRatio := 0, vadflag := 0 }
/-! ## Model adaptation (second channel loop of gmmProbability) -/

/-- One Gaussian of the adaptation loop: updates the noise mean and, depending
on `vadflag`, either the speech mean and speech std or the noise std. -/
def adaptGaussian (vadflag : Int) (features : List Int) (p1 : GmmPass1)
    (tmp1S16 featureMinimum maxspe : Int) (channel k : Nat) (self : VadInst) : VadInst :=
  let gaussian := channel + k * kNumChannels
  let nmk := lget self.noiseMeans gaussian
  let smk := lget self.speechMeans gaussian
  let nsk := lget self.noiseStds gaussian
  let ssk := lget self.speechStds gaussian
  let nmk2 :=
    if vadflag = 0 then
      let delt := i16 (sar (i32 (lget p1.ngprvec gaussian * lget p1.deltaN gaussian)) 11)
      i16 (nmk + i16 (sar (i32 (delt * kNoiseUpdateConst)) 22))
    else nmk
  let ndelt := i16 (i16 (featureMinimum * 16) - tmp1S16)
  let nmk3 := i16 (nmk2 + i16 (sar (i32 (ndelt * kBackEta)) 9))
  let lo := i16 ((Int.ofNat k + 5) * 128)
  let nmk3 := if nmk3 < lo then lo else nmk3
  let hi := i16 ((72 + Int.ofNat k - Int.ofNat channel) * 128)
  let nmk3 := if nmk3 > hi then hi else nmk3
  let self := { self with noiseMeans := lset self.noiseMeans gaussian nmk3 }
  if vadflag ≠ 0 then
    let delt := i16 (sar (i32 (lget p1.sgprvec gaussian * lget p1.deltaS gaussian)) 11)
    let tmpS16 := i16 (sar (i32 (delt * kSpeechUpdateConst)) 21)
    let smk2 := i16 (smk + sar (i16 (tmpS16 + 1)) 1)
    let maxmu := i16 (maxspe + 640)
    let smk2 := if smk2 < lget kMinimumMean k then lget kMinimumMean k else smk2
    let smk2 := if smk2 > maxmu then maxmu else smk2
    let self := { self with speechMeans := lset self.speechMeans gaussian smk2 }
    let tmpS16 := sar (i16 (smk + 4)) 3
    let tmpS16 := i16 (lget features channel - tmpS16)
    let tmp1S32 := sar (i32 (lget p1.deltaS gaussian * tmpS16)) 3
    let tmp2S32 := i32 (tmp1S32 - 4096)
    let tmpS16 := sar (lget p1.sgprvec gaussian) 2
    let tmp1S32 := i32 (tmpS16 * tmp2S32)
    let tmp2S32 := sar tmp1S32 4
    let tmpS16 :=
      if tmp2S32 > 0 then i16 (divW32W16 tmp2S32 (i16 (ssk * 10)))
      else i16 (-(i16 (divW32W16 (i32 (-tmp2S32)) (i16 (ssk * 10)))))
    let tmpS16 := i16 (tmpS16 + 128)
    let ssk := i16 (ssk + sar tmpS16 8)
    let ssk := if ssk < kMinStd then kMinStd else ssk
    { self with speechStds := lset self.speechStds gaussian ssk }
  else
    let tmpS16 := i16 (lget features channel - sar nmk 3)
    let tmp1S32 := sar (i32 (lget p1.deltaN gaussian * tmpS16)) 3
    let tmp1S32 := i32 (tmp1S32 - 4096)
    let tmpS16 := sar (i16 (lget p1.ngprvec gaussian + 2)) 2
    -- overflowingMulS16ByS32ToS32: deliberately wrapping int32 product
    let tmp2S32 := i32 (tmpS16 * tmp1S32)
    let tmp1S32 := sar tmp2S32 14
    let tmpS16 :=
      if tmp1S32 > 0 then i16 (divW32W16 tmp1S32 nsk)
      else i16 (-(i16 (divW32W16 (i32 (-tmp1S32)) nsk)))
    let tmpS16 := i16 (tmpS16 + 32)
    let nsk := i16 (nsk + sar tmpS16 6)
    let nsk := if nsk < kMinStd then kMinStd else nsk
    { self with noiseStds := lset self.noiseStds gaussian nsk }

/-- One channel of the adaptation loop of `gmmProbability`: minimum tracking,
Gaussian updates, push-apart and final clipping.  Threads `(self, maxspe)`. -/
def gmmAdaptChannel (vadflag : Int) (features : List Int) (p1 : GmmPass1)
    (acc : VadInst × Int) (channel : Nat) : VadInst × Int :=
  let (self, maxspe) := acc
  let (featureMinimum, self) := findMinimum self (lget features channel) channel
  let (noiseGlobalMean, nm) :=
    weightedAverage (self.noiseMeans.drop channel) 0 (kNoiseDataWeights.drop channel)
  let self := { self with noiseMeans := self.noiseMeans.take channel ++ nm }
  let tmp1S16 := i16 (sar noiseGlobalMean 6)
  let self := adaptGaussian vadflag features p1 tmp1S16 featureMinimum maxspe channel 0 self
  let self := adaptGaussian vadflag features p1 tmp1S16 featureMinimum maxspe channel 1 self
  let (noiseGlobalMean, nm) :=
    weightedAverage (self.noiseMeans.drop channel) 0 (kNoiseDataWeights.drop channel)
  let self := { self with noiseMeans := self.noiseMeans.take channel ++ nm }
  let (speechGlobalMean, sm) :=
    weightedAverage (self.speechMeans.drop channel) 0 (kSpeechDataWeights.drop channel)
  let self := { self with speechMeans := self.speechMeans.take channel ++ sm }
  let diff := i16 (i16 (sar speechGlobalMean 9) - i16 (sar noiseGlobalMean 9))
  let (noiseGlobalMean, speechGlobalMean, self) :=
    if diff < lget kMinimumDifference channel then
      let tmpS16 := i16 (lget kMinimumDifference channel - diff)
      let tmp1S16 := i16 (sar (i32 (13 * tmpS16)) 2)
      let tmp2S16 := i16 (sar (i32 (3 * tmpS16)) 2)
      let (speechGlobalMean, sm) :=
        weightedAverage (self.speechMeans.drop channel) tmp1S16
          (kSpeechDataWeights.drop channel)
      let self := { self with speechMeans := self.speechMeans.take channel ++ sm }
      let (noiseGlobalMean, nm) :=
        weightedAverage (self.noiseMeans.drop channel) (i16 (-tmp2S16))
          (kNoiseDataWeights.drop channel)
      let self := { self with noiseMeans := self.noiseMeans.take channel ++ nm }
      (noiseGlobalMean, speechGlobalMean, self)
    else (noiseGlobalMean, speechGlobalMean, self)
  let maxspe := lget kMaximumSpeech channel
  let tmp2S16 := i16 (sar speechGlobalMean 7)
  let self :=
    if tmp2S16 > maxspe then
      let excess := i16 (tmp2S16 - maxspe)
      let sm1 := lset self.speechMeans channel
        (i16 (lget self.speechMeans channel - excess))
      let sm2 := lset sm1 (channel + kNumChannels)
        (i16 (lget sm1 (channel + kNumChannels) - excess))
      { self with speechMeans := sm2 }
    else self
  let tmp2S16 := i16 (sar noiseGlobalMean 7)
  let self :=
    if tmp2S16 > lget kMaximumNoise channel then
      let excess := i16 (tmp2S16 - lget kMaximumNoise channel)
      let nm1 := lset self.noiseMeans channel
        (i16 (lget self.noiseMeans channel - excess))
      let nm2 := lset nm1 (channel + kNumChannels)
        (i16 (lget nm1 (channel + kNumChannels) - excess))
      { self with noiseMeans := nm2 }
    else self
  (self, maxspe)

/-- The gated likelihood-and-adaptation block of `gmmProbability`; returns the
raw `vadflag` and the updated state. -/
def gmmMainBlock (self : VadInst) (features : List Int)
    (individualTest totalTest : Int) : Int × VadInst :=
  let p1 := gmmPass1 self features individualTest
  let vadflag :=
    if p1.sumLogLikelihoodRatio ≥ totalTest then 1 else p1.vadflag
  let res :=
    (List.range kNumChannels).foldl (gmmAdaptChannel vadflag features p1) (self, 12800)
  (vadflag, { res.1 with frameCounter := i32 (res.1.frameCounter + 1) })

/-- Hysteresis step at the end of `gmmProbability` (vad_core driver). -/
def hysteresis (vadflag overhead1 overhead2 : Int) (self : VadInst) : Int × VadInst :=
  if vadflag = 0 then
    if self.overHang > 0 then
      (i16 (2 + self.overHang),
       { self with overHang := i16 (self.overHang - 1), numOfSpeech := 0 })
    else (vadflag, { self with numOfSpeech := 0 })
  else
    let n := i16 (self.numOfSpeech + 1)
    if n > kMaxSpeechFrames then
      (vadflag, { self with numOfSpeech := kMaxSpeechFrames, overHang := overhead2 })
    else
      (vadflag, { self with numOfSpeech := n, overHang := overhead1 })

/-- `gmmProbability` (vad_core driver): energy gate, GMM decision, model
adaptation and hysteresis; returns the emitted label and the new state. -/
def gmmProbability (self : VadInst) (features : List Int) (totalPower : Int)
    (frameLength : Nat) : Int × VadInst :=
  let th := gmmThresholds self frameLength
  let res :=
    if totalPower > kMinEnergy then gmmMainBlock self features th.2.2.1 th.2.2.2
    else (0, self)
  hysteresis res.1 th.1 th.2.1 res.2
/-! ## 2x decimator (vad_sp.go downsampling) -/

/-- Loop body of `downsampling`: two one-multiply all-pass branches over the
even and odd input phases; `k` counts the remaining output samples. -/
def dsLoop (signalIn : List Int) : Nat → Nat → Int → Int → List Int × Int × Int
  | 0, _, s1, s2 => ([], s1, s2)
  | k + 1, n, s1, s2 =>
    let x0 := lget signalIn (n * 2)
    let tmp16_1 := i16 (sar s1 1 + sar (i32 (lget kAllPassCoefsQ13 0 * x0)) 14)
    let s1 := i32 (x0 - sar (i32 (lget kAllPassCoefsQ13 0 * tmp16_1)) 12)
    let x1 := lget signalIn (n * 2 + 1)
    let tmp16_2 := i16 (sar s2 1 + sar (i32 (lget kAllPassCoefsQ13 1 * x1)) 14)
    let outN := i16 (tmp16_1 + tmp16_2)
    let s2 := i32 (x1 - sar (i32 (lget kAllPassCoefsQ13 1 * tmp16_2)) 12)
    let (outs, s1f, s2f) := dsLoop signalIn k (n + 1) s1 s2
    (outN :: outs, s1f, s2f)

/-- `downsampling` (vad_sp.go): halves the rate; `filterState` holds the two
int32 all-pass accumulators and is returned updated. -/
def downsampling (signalIn : List Int) (filterState : List Int) (inLength : Nat) :
    List Int × List Int :=
  let (outs, s1, s2) := dsLoop signalIn (inLength / 2) 0 (lget filterState 0)
    (lget filterState 1)
  (outs, [s1, s2])

/-! ## Multi-stage 48 kHz resampler (resample.go) -/

def kResampleAllpass : List (List Int) :=
  [[821, 6110, 12382], [3050, 9368, 15063]]

def kCoefficients48To32 : List (List Int) :=
  [[778, -2050, 1087, 23285, 12903, -3783, 441, 222],
   [222, 441, -3783, 12903, 23285, 1087, -2050, 778]]

/-- Rounded lattice stage: `diff = (diff + (1 << 13)) >> 14`. -/
def rnd14 (x : Int) : Int := sar (i32 (x + 8192)) 14

/-- Truncated lattice stage: `diff >>= 14; if diff < 0 then diff += 1`. -/
def trn14 (x : Int) : Int :=
  let d := sar x 14
  if d < 0 then d + 1 else d

/-- One three-stage all-pass lattice step shared by the 2x stages of the
48 kHz chain: given coefficients `c`, state `(s0, s1, s2, s3)` and biased
input `tmp0`, returns the new state; `s3` is the branch output register. -/
def lattice3 (c : List Int) (s0 s1 s2 s3 tmp0 : Int) : Int × Int × Int × Int :=
  let diff := rnd14 (i32 (tmp0 - s1))
  let tmp1 := i32 (s0 + i32 (diff * lget c 0))
  let s0 := tmp0
  let diff := trn14 (i32 (tmp1 - s2))
  let tmp0b := i32 (s1 + i32 (diff * lget c 1))
  let s1 := tmp1
  let diff := trn14 (i32 (tmp0b - s3))
  let s3 := i32 (s2 + i32 (diff * lget c 2))
  let s2 := tmp0b
  (s0, s1, s2, s3)

/-- Branch loop of `downBy2ShortToInt`: input sample at stride-2 index
`phase + 2 i`, biased by `(x << 15) + (1 << 14)`; emits `state3 >> 1`. -/
def db2siLoop (input : List Int) (c : List Int) (phase : Nat) :
    Nat → Nat → Int → Int → Int → Int → List Int × (Int × Int × Int × Int)
  | 0, _, s0, s1, s2, s3 => ([], (s0, s1, s2, s3))
  | k + 1, i, s0, s1, s2, s3 =>
    let tmp0 := i32 (lget input (i * 2 + phase) * 32768 + 16384)
    let (s0, s1, s2, s3) := lattice3 c s0 s1 s2 s3 tmp0
    let (outs, stf) := db2siLoop input c phase k (i + 1) s0 s1 s2 s3
    (sar s3 1 :: outs, stf)

/-- `downBy2ShortToInt` (resample.go): int16 input, biased int32 output; the
lower lattice runs on even samples, the upper on odd samples, outputs summed.
Returns the output and the updated 8-entry state. -/
def downBy2ShortToInt (input : List Int) (length : Nat) (state : List Int) :
    List Int × List Int :=
  let half := length / 2
  let (lo, (s0, s1, s2, s3)) := db2siLoop input (kResampleAllpass.getD 1 []) 0 half 0
    (lget state 0) (lget state 1) (lget state 2) (lget state 3)
  let (hi, (s4, s5, s6, s7)) := db2siLoop input (kResampleAllpass.getD 0 []) 1 half 0
    (lget state 4) (lget state 5) (lget state 6) (lget state 7)
  (List.zipWith (fun a b => i32 (a + b)) lo hi, [s0, s1, s2, s3, s4, s5, s6, s7])

/-- Branch loop of `lpBy2IntToInt` and `downBy2IntToShort`: int32 input at
stride-2 index `phase + 2 i`, no bias; emits the raw `state3` register. -/
def db2iiLoop (input : List Int) (c : List Int) (phase : Nat) :
    Nat → Nat → Int → Int → Int → Int → List Int × (Int × Int × Int × Int)
  | 0, _, s0, s1, s2, s3 => ([], (s0, s1, s2, s3))
  | k + 1, i, s0, s1, s2, s3 =>
    let tmp0 := lget input (i * 2 + phase)
    let (s0, s1, s2, s3) := lattice3 c s0 s1 s2 s3 tmp0
    let (outs, stf) := db2iiLoop input c phase k (i + 1) s0 s1 s2 s3
    (s3 :: outs, stf)

/-- `lpBy2IntToInt` (resample.go): the Go port emits `halfLength` output
samples, the lower branch register then the halved branch sum. -/
def lpBy2IntToInt (input : List Int) (length : Nat) (state : List Int) :
    List Int × List Int :=
  let half := length / 2
  let (lo, (s0, s1, s2, s3)) := db2iiLoop input (kResampleAllpass.getD 1 []) 0 half 0
    (lget state 0) (lget state 1) (lget state 2) (lget state 3)
  let (hi, (s8, s9, s10, s11)) := db2iiLoop input (kResampleAllpass.getD 0 []) 1 half 0
    (lget state 8) (lget state 9) (lget state 10) (lget state 11)
  (List.zipWith (fun a b => sar (i32 (a + b)) 1) lo hi,
   [s0, s1, s2, s3, lget state 4, lget state 5, lget state 6, lget state 7,
    s8, s9, s10, s11, lget state 12, lget state 13, lget state 14, lget state 15])

/-- Saturating conversion to int16 at the end of `downBy2IntToShort`. -/
def sat16 (x : Int) : Int :=
  if x > 0x00007FFF then 0x00007FFF else if x < -0x00008000 then -0x00008000 else x

/-- Combining loop of `downBy2IntToShort`: reads the halved branch registers
written back into the input buffer, pairs them, scales and saturates. -/
def db2isCombine (halves : List Int) : Nat → Nat → List Int
  | _, 0 => []
  | i, fuel + 1 =>
    let tmp0 := sar (i32 (lget halves (2 * i) + lget halves (2 * i + 1))) 15
    let tmp1 := sar (i32 (lget halves (2 * i + 2) + lget halves (2 * i + 3))) 15
    sat16 tmp0 :: sat16 tmp1 :: db2isCombine halves (i + 2) fuel

/-- `downBy2IntToShort` (resample.go): biased int32 input, saturated int16
output; the input buffer is overwritten with the halved branch registers and
returned alongside the output and the updated state. -/
def downBy2IntToShort (input : List Int) (length : Nat) (state : List Int) :
    List Int × List Int × List Int :=
  let half := length / 2
  let lo := db2iiLoop input (kResampleAllpass.getD 1 []) 0 half 0
    (lget state 0) (lget state 1) (lget state 2) (lget state 3)
  let hi := db2iiLoop input (kResampleAllpass.getD 0 []) 1 half 0
    (lget state 4) (lget state 5) (lget state 6) (lget state 7)
  let halves := interleave (lo.1.map (fun v => sar v 1)) (hi.1.map (fun v => sar v 1))
  let out := db2isCombine halves 0 (half / 2)
  (out, halves,
   [lo.2.1, lo.2.2.1, lo.2.2.2.1, lo.2.2.2.2,
    hi.2.1, hi.2.2.1, hi.2.2.2.1, hi.2.2.2.2])

/-- One block of `resample48khzTo32khz`: 3 input samples yield 2 outputs via
two 8-tap phases; out-of-range taps are skipped as in the Go bounds guard. -/
def r4832Block (input : List Int) (inIdx : Nat) (phase : Nat) : Int :=
  (List.range 8).foldl
    (fun tmp j =>
      if inIdx + j + phase < input.length then
        i32 (tmp + i32 (lget2 kCoefficients48To32 phase j * lget input (inIdx + j + phase)))
      else tmp)
    16384

/-- `resample48khzTo32khz` (resample.go): 2:3 fractional polyphase filter,
`K` blocks of 3 inputs and 2 outputs. -/
def resample48khzTo32khz (input : List Int) (kBlocks : Nat) : List Int :=
  (List.range kBlocks).foldl
    (fun acc m => acc ++ [r4832Block input (m * 3) 0, r4832Block input (m * 3) 1]) []

/-- The four sub-states of `state48khzTo8khz`. -/
structure State48To8 where
  s48_24 : List Int
  s24_24 : List Int
  s24_16 : List Int
  s16_8 : List Int
deriving Repr, DecidableEq

/-- Write a sublist into `l` starting at `pos`. -/
def splice (l : List Int) (pos : Nat) (sub : List Int) : List Int :=
  l.take pos ++ sub ++ l.drop (pos + sub.length)

/-- `resample48khzTo8khzFull` (resample.go): the staged 48 -> 24 -> 24(LP) ->
16 -> 8 chain operating in the caller-provided scratch buffer `tmpMem`;
returns the 80 int16 output samples, the new state and the mutated scratch. -/
def resample48khzTo8khzFull (input : List Int) (st : State48To8) (tmpMem : List Int) :
    List Int × State48To8 × List Int :=
  let r1 := downBy2ShortToInt input 480 st.s48_24
  let tmpMem := splice tmpMem 256 r1.1
  let r2 := lpBy2IntToInt ((tmpMem.drop 256).take 240) 240 st.s24_24
  let tmpMem := splice tmpMem 16 r2.1
  let tmpMem := splice tmpMem 8 st.s24_16
  let s24_16 := (tmpMem.drop 248).take 8
  let o3 := resample48khzTo32khz (tmpMem.drop 8) 80
  let tmpMem := splice tmpMem 0 o3
  let r3 := downBy2IntToShort (tmpMem.take 160) 160 st.s16_8
  let tmpMem := splice tmpMem 0 r3.2.1
  (r3.1, { s48_24 := r1.2, s24_24 := r2.2, s24_16 := s24_16, s16_8 := r3.2.2 }, tmpMem)
/-! ## Per-rate entry points (vad driver) -/

/-- `calcVad8khz`: feature extraction followed by the GMM decision; the raw
label is stored in the `vad` field. -/
def calcVad8khz (inst : VadInst) (speechFrame : List Int) (frameLength : Nat) :
    Int × VadInst :=
  let cf := calculateFeatures inst speechFrame frameLength
  let res := gmmProbability cf.1 cf.2.1 cf.2.2 frameLength
  (res.1, { res.2 with vad := res.1 })

/-- `calcVad16khz`: one 2x decimation using `downsamplingFilterStates[0:2]`,
then the 8 kHz pipeline on half the length. -/
def calcVad16khz (inst : VadInst) (speechFrame : List Int) (frameLength : Nat) :
    Int × VadInst :=
  let ds := downsampling speechFrame (inst.downsamplingFilterStates.take 2) frameLength
  let inst := { inst with downsamplingFilterStates :=
    ds.2 ++ inst.downsamplingFilterStates.drop 2 }
  calcVad8khz inst ds.1 (frameLength / 2)

/-- `calcVad32khz`: two cascaded 2x decimations, states `[2:4]` then `[0:2]`. -/
def calcVad32khz (inst : VadInst) (speechFrame : List Int) (frameLength : Nat) :
    Int × VadInst :=
  let dsW := downsampling speechFrame (inst.downsamplingFilterStates.drop 2) frameLength
  let inst := { inst with downsamplingFilterStates :=
    inst.downsamplingFilterStates.take 2 ++ dsW.2 }
  let length := frameLength / 2
  let dsN := downsampling dsW.1 (inst.downsamplingFilterStates.take 2) length
  let inst := { inst with downsamplingFilterStates :=
    dsN.2 ++ inst.downsamplingFilterStates.drop 2 }
  calcVad8khz inst dsN.1 (length / 2)

/-- The 10 ms subframe loop of `calcVad48khz`: resamples chunk `i` of the
input through the persistent state and writes 80 samples at `80 * i` of the
narrowband buffer, threading the scratch buffer between subframes. -/
def calc48Loop (speechFrame : List Int) :
    Nat → Nat → List Int → State48To8 → List Int → List Int × State48To8
  | 0, _, speechNB, st, _ => (speechNB, st)
  | k + 1, i, speechNB, st, tmpMem =>
    let chunk := (speechFrame.drop (i * 480)).take 480
    let r := resample48khzTo8khzFull chunk st tmpMem
    calc48Loop speechFrame k (i + 1) (splice speechNB (i * 80) r.1) r.2.1 r.2.2

/-- `calcVad48khz`: chunks the input into 10 ms subframes, resamples each
through the persistent `state48To8`, and runs the 8 kHz pipeline on
`frameLength / 6` samples. -/
def calcVad48khz (inst : VadInst) (speechFrame : List Int) (frameLength : Nat) :
    Int × VadInst :=
  let speechNB := List.replicate 240 0
  let tmpMem := List.replicate (480 + 256) 0
  let num10msFrames := frameLength / 480
  let st : State48To8 :=
    { s48_24 := inst.s48_24, s24_24 := inst.s24_24,
      s24_16 := inst.s24_16, s16_8 := inst.s16_8 }
  let lr := calc48Loop speechFrame num10msFrames 0 speechNB st tmpMem
  let inst := { inst with s48_24 := lr.2.s48_24, s24_24 := lr.2.s24_24,
                          s24_16 := lr.2.s24_16, s16_8 := lr.2.s16_8 }
  calcVad8khz inst lr.1 (frameLength / 6)

/-! ## process and the public API (vad_core.go / public driver) -/

/-- `process` (vad_core.go): validity checks, per-rate dispatch, and
normalization of the emitted label to 0/1. -/
def process (inst : VadInst) (fs : Int) (audioFrame : List Int) :
    Option (Int × VadInst) :=
  if inst.initFlag ≠ kInitCheck then none
  else if audioFrame.length = 0 then none
  else
    let frameLength := audioFrame.length
    if ¬ ValidRateAndFrameLength fs (Int.ofNat frameLength) then none
    else
      let r : Option (Int × VadInst) :=
        if fs = 48000 then some (calcVad48khz inst audioFrame frameLength)
        else if fs = 32000 then some (calcVad32khz inst audioFrame frameLength)
        else if fs = 16000 then some (calcVad16khz inst audioFrame frameLength)
        else if fs = 8000 then some (calcVad8khz inst audioFrame frameLength)
        else none
      match r with
      | some (vad, inst) => some (if vad > 0 then 1 else vad, inst)
      | none => none

/-- `bytesToInt16` (public driver): little-endian decoding of `len / 2`
samples; bytes are values in `[0, 255]`. -/
def bytesToInt16 (buf : List Int) : List Int :=
  (List.range (buf.length / 2)).map
    (fun i => i16 (lget buf (i * 2) + lget buf (i * 2 + 1) * 256))

/-- `isValidSampleRate` (public driver). -/
def isValidSampleRate (rate : Int) : Bool :=
  rate == 8000 || rate == 16000 || rate == 32000 || rate == 48000

/-- `New` (public driver): fresh initialized detector set to `mode`. -/
def NewVad (mode : Int) : Option VadInst :=
  if mode < 0 ∨ mode > 3 then none
  else
    match initCore createVadInst with
    | some inst => setModeCore inst mode
    | none => none

/-- `IsSpeech` (public driver): decodes the little-endian PCM buffer, checks
the rate and the frame length computed as `len(buf) / 2`, processes the frame
and reports whether the normalized decision is positive. -/
def IsSpeech (inst : VadInst) (buf : List Int) (sampleRate : Int) :
    Option (Bool × VadInst) :=
  if inst.initFlag ≠ kInitCheck then none
  else if ¬ isValidSampleRate sampleRate then none
  else
    let frameLength := buf.length / 2
    if ¬ ValidRateAndFrameLength sampleRate (Int.ofNat frameLength) then none
    else
      let audioFrame := bytesToInt16 buf
      match process inst sampleRate audioFrame with
      | some (vad, inst) => some (vad > 0, inst)
      | none => none
/-! ## Statement apparatus: named views and auxiliary definitions -/

/-- The twelve valid (rate, frame length) pairs of the grid. -/
def gridPairs : List (Int × Int) :=
  [(8000, 80), (8000, 160), (8000, 240),
   (16000, 160), (16000, 320), (16000, 480),
   (32000, 320), (32000, 640), (32000, 960),
   (48000, 480), (48000, 960), (48000, 1440)]

/-- The 16-entry window of smallest values for `channel` after a
`findMinimum` call. -/
def updatedWindow (s : VadInst) (f : Int) (ch : Nat) : List Int :=
  (((findMinimum s f ch).2.lowValueVector).drop (ch * 16)).take 16

/-- The median estimate picked by `findMinimum`: the third-smallest stored
value after at least 3 processed frames, the smallest for frames 1 and 2, and
the constant 1600 before the first processed frame. -/
def medianEstimate (s : VadInst) (f : Int) (ch : Nat) : Int :=
  if s.frameCounter > 2 then lget (updatedWindow s f ch) 2
  else if s.frameCounter > 0 then lget (updatedWindow s f ch) 0
  else 1600

/-- The smoothing coefficient selected by `findMinimum`. -/
def smoothingAlpha (s : VadInst) (f : Int) (ch : Nat) : Int :=
  if s.frameCounter > 0 then
    if medianEstimate s f ch < lget s.meanValue ch then kSmoothingDown else kSmoothingUp
  else 0

/-- The resampler state `calcVad48khz` assembles from the detector fields. -/
def vadResampleState (inst : VadInst) : State48To8 :=
  { s48_24 := inst.s48_24, s24_24 := inst.s24_24,
    s24_16 := inst.s24_16, s16_8 := inst.s16_8 }

/-- The narrowband buffer `calcVad48khz` hands to the 8 kHz pipeline. -/
def vad48NB (inst : VadInst) (speechFrame : List Int) (frameLength : Nat) : List Int :=
  (calc48Loop speechFrame (frameLength / 480) 0 (List.replicate 240 0)
    (vadResampleState inst) (List.replicate (480 + 256) 0)).1

/-- The resampler state after the subframe loop of `calcVad48khz`. -/
def vad48State (inst : VadInst) (speechFrame : List Int) (frameLength : Nat) :
    State48To8 :=
  (calc48Loop speechFrame (frameLength / 480) 0 (List.replicate 240 0)
    (vadResampleState inst) (List.replicate (480 + 256) 0)).2

/-- The successive 10 ms subframe outputs of the loop of `calcVad48khz`:
chunk `i` of the input resampled through the threaded state and scratch. -/
def resampleChunks (speechFrame : List Int) :
    Nat → Nat → State48To8 → List Int → List (List Int)
  | 0, _, _, _ => []
  | k + 1, i, st, tmpMem =>
    let chunk := (speechFrame.drop (i * 480)).take 480
    let r := resample48khzTo8khzFull chunk st tmpMem
    r.1 :: resampleChunks speechFrame k (i + 1) r.2.1 r.2.2

/-- The spec's wording of `calculateEnergy` for comparison: the overflow
guard applied after every accumulated sample. -/
def calculateEnergyPerSample : List Int → Int → Int → Int × Int
  | [], e, s => (e, s)
  | x :: rest, e, s =>
    let e := u32 (e + u32 (i32 (x * x)))
    let (e, s) := ceGuard e s
    calculateEnergyPerSample rest e s

/-- Blockwise reading of the Go `calculateEnergy`: chunks of four samples with
one guard per chunk, then the per-sample remainder. -/
def ceBlocks : List Int → Int → Int → Int × Int
  | x0 :: x1 :: x2 :: x3 :: rest, e, s =>
    let sq := i32 (i32 (i32 (i32 (x0 * x0) + i32 (x1 * x1)) + i32 (x2 * x2)) +
      i32 (x3 * x3))
    let (e, s) := ceGuard (u32 (e + u32 sq)) s
    ceBlocks rest e s
  | rest, e, s => calculateEnergyPerSample rest e s

/-- Invariant threaded through every reachable state: hysteresis counters in
range, hang-over tables in range, and the std floors (`kMinStd` = 384 for the
speech stds, 378 — the smallest tabulated initial noise std — for the noise
stds). -/
def Inv (s : VadInst) : Prop :=
  0 ≤ s.overHang ∧ s.overHang ≤ 14 ∧ 0 ≤ s.numOfSpeech ∧ s.numOfSpeech ≤ 6 ∧
  (∀ x ∈ s.overHangMax1, 0 ≤ x ∧ x ≤ 14) ∧
  (∀ x ∈ s.overHangMax2, 0 ≤ x ∧ x ≤ 14) ∧
  (∀ x ∈ s.speechStds, kMinStd ≤ x) ∧
  (∀ x ∈ s.noiseStds, 378 ≤ x)

/-- States reachable through the public API: a fresh detector, a mode change,
or a successfully processed frame. -/
inductive Reachable : VadInst → Prop where
  | init : ∀ (mode : Int) (s : VadInst), NewVad mode = some s → Reachable s
  | setMode : ∀ (mode : Int) (s t : VadInst), Reachable s →
      setModeCore s mode = some t → Reachable t
  | speech : ∀ (buf : List Int) (rate : Int) (b : Bool) (s t : VadInst),
      Reachable s → IsSpeech s buf rate = some (b, t) → Reachable t
set_option maxRecDepth 8000
/-! ## Helper lemmas about the wrap functions -/

theorem i32_idem (x : Int) : i32 (i32 x) = i32 x := by
  unfold i32; omega

theorem i16_eq_self (x : Int) (h1 : -32768 ≤ x) (h2 : x ≤ 32767) : i16 x = x := by
  unfold i16; omega

theorem lget_bound {l : List Int} {lo hi : Int} (h : ∀ x ∈ l, lo ≤ x ∧ x ≤ hi)
    (h0 : lo ≤ 0) (h1 : 0 ≤ hi) (i : Nat) : lo ≤ lget l i ∧ lget l i ≤ hi := by
  unfold lget
  rcases hg : l[i]? with _ | v
  · simpa [List.getD, hg] using ⟨h0, h1⟩
  · have hv : v ∈ l := List.getElem?_mem hg
    simpa [List.getD, hg] using h v hv

theorem mem_lset {l : List Int} {P : Int → Prop} (h : ∀ x ∈ l, P x) {w : Int}
    (hw : P w) (i : Nat) : ∀ x ∈ lset l i w, P x := by
  intro x hx
  rcases List.mem_or_eq_of_mem_set hx with hx' | rfl
  · exact h x hx'
  · exact hw

/-! ## State invariant maintained by the public operations -/

/-! Projection lemmas: the adaptation loop never touches the hysteresis
counters or the hang-over tables. -/

theorem findMinimum_oh (s : VadInst) (f : Int) (ch : Nat) :
    (findMinimum s f ch).2.overHang = s.overHang := rfl

theorem findMinimum_ns (s : VadInst) (f : Int) (ch : Nat) :
    (findMinimum s f ch).2.numOfSpeech = s.numOfSpeech := rfl

theorem findMinimum_ohm1 (s : VadInst) (f : Int) (ch : Nat) :
    (findMinimum s f ch).2.overHangMax1 = s.overHangMax1 := rfl

theorem findMinimum_ohm2 (s : VadInst) (f : Int) (ch : Nat) :
    (findMinimum s f ch).2.overHangMax2 = s.overHangMax2 := rfl

theorem findMinimum_sstds (s : VadInst) (f : Int) (ch : Nat) :
    (findMinimum s f ch).2.speechStds = s.speechStds := rfl

theorem findMinimum_nstds (s : VadInst) (f : Int) (ch : Nat) :
    (findMinimum s f ch).2.noiseStds = s.noiseStds := rfl

theorem adaptGaussian_oh (v : Int) (f : List Int) (p1 : GmmPass1)
    (t fm mx : Int) (ch k : Nat) (s : VadInst) :
    (adaptGaussian v f p1 t fm mx ch k s).overHang = s.overHang := by
  unfold adaptGaussian
  by_cases hv : v ≠ 0
  · simp only [if_pos hv]
  · simp only [if_neg hv]

theorem adaptGaussian_ns (v : Int) (f : List Int) (p1 : GmmPass1)
    (t fm mx : Int) (ch k : Nat) (s : VadInst) :
    (adaptGaussian v f p1 t fm mx ch k s).numOfSpeech = s.numOfSpeech := by
  unfold adaptGaussian
  by_cases hv : v ≠ 0
  · simp only [if_pos hv]
  · simp only [if_neg hv]

theorem adaptGaussian_ohm1 (v : Int) (f : List Int) (p1 : GmmPass1)
    (t fm mx : Int) (ch k : Nat) (s : VadInst) :
    (adaptGaussian v f p1 t fm mx ch k s).overHangMax1 = s.overHangMax1 := by
  unfold adaptGaussian
  by_cases hv : v ≠ 0
  · simp only [if_pos hv]
  · simp only [if_neg hv]

theorem adaptGaussian_ohm2 (v : Int) (f : List Int) (p1 : GmmPass1)
    (t fm mx : Int) (ch k : Nat) (s : VadInst) :
    (adaptGaussian v f p1 t fm mx ch k s).overHangMax2 = s.overHangMax2 := by
  unfold adaptGaussian
  by_cases hv : v ≠ 0
  · simp only [if_pos hv]
  · simp only [if_neg hv]

/-- Any floor-closed bound on the std tables survives `adaptGaussian`: each
branch writes a single entry guarded by the `kMinStd` floor. -/
theorem adaptGaussian_sstds_pred (P : Int → Prop)
    (hP : ∀ x, P (if x < kMinStd then kMinStd else x))
    (v : Int) (f : List Int) (p1 : GmmPass1) (t fm mx : Int) (ch k : Nat)
    (s : VadInst) (h : ∀ x ∈ s.speechStds, P x) :
    ∀ x ∈ (adaptGaussian v f p1 t fm mx ch k s).speechStds, P x := by
  unfold adaptGaussian
  by_cases hv : v ≠ 0
  · simp only [if_pos hv]
    exact mem_lset h (hP _) _
  · simp only [if_neg hv]
    exact h

theorem adaptGaussian_nstds_pred (P : Int → Prop)
    (hP : ∀ x, P (if x < kMinStd then kMinStd else x))
    (v : Int) (f : List Int) (p1 : GmmPass1) (t fm mx : Int) (ch k : Nat)
    (s : VadInst) (h : ∀ x ∈ s.noiseStds, P x) :
    ∀ x ∈ (adaptGaussian v f p1 t fm mx ch k s).noiseStds, P x := by
  unfold adaptGaussian
  by_cases hv : v ≠ 0
  · simp only [if_pos hv]
    exact h
  · simp only [if_neg hv]
    exact mem_lset h (hP _) _

/-- One adaptation channel preserves the hysteresis counters and tables. -/
theorem gmmAdaptChannel_frame (v : Int) (f : List Int) (p1 : GmmPass1)
    (s : VadInst) (mx : Int) (ch : Nat) :
    (gmmAdaptChannel v f p1 (s, mx) ch).1.overHang = s.overHang ∧
    (gmmAdaptChannel v f p1 (s, mx) ch).1.numOfSpeech = s.numOfSpeech ∧
    (gmmAdaptChannel v f p1 (s, mx) ch).1.overHangMax1 = s.overHangMax1 ∧
    (gmmAdaptChannel v f p1 (s, mx) ch).1.overHangMax2 = s.overHangMax2 := by
  refine ⟨?_, ?_, ?_, ?_⟩
  · simp only [gmmAdaptChannel, findMinimum_oh, adaptGaussian_oh,
      apply_ite (fun t : Int × Int × VadInst => VadInst.overHang t.2.2),
      apply_ite (VadInst.overHang), ite_self]
  · simp only [gmmAdaptChannel, findMinimum_ns, adaptGaussian_ns,
      apply_ite (fun t : Int × Int × VadInst => VadInst.numOfSpeech t.2.2),
      apply_ite (VadInst.numOfSpeech), ite_self]
  · simp only [gmmAdaptChannel, findMinimum_ohm1, adaptGaussian_ohm1,
      apply_ite (fun t : Int × Int × VadInst => VadInst.overHangMax1 t.2.2),
      apply_ite (VadInst.overHangMax1), ite_self]
  · simp only [gmmAdaptChannel, findMinimum_ohm2, adaptGaussian_ohm2,
      apply_ite (fun t : Int × Int × VadInst => VadInst.overHangMax2 t.2.2),
      apply_ite (VadInst.overHangMax2), ite_self]

/-- One adaptation channel preserves any floor-closed bound on the stds. -/
theorem gmmAdaptChannel_stds (P Q : Int → Prop)
    (hP : ∀ x, P (if x < kMinStd then kMinStd else x))
    (hQ : ∀ x, Q (if x < kMinStd then kMinStd else x))
    (v : Int) (f : List Int) (p1 : GmmPass1) (s : VadInst) (mx : Int) (ch : Nat)
    (hs : ∀ x ∈ s.speechStds, P x) (hn : ∀ x ∈ s.noiseStds, Q x) :
    (∀ x ∈ (gmmAdaptChannel v f p1 (s, mx) ch).1.speechStds, P x) ∧
    (∀ x ∈ (gmmAdaptChannel v f p1 (s, mx) ch).1.noiseStds, Q x) := by
  constructor
  · simp only [gmmAdaptChannel, findMinimum_sstds,
      apply_ite (fun t : Int × Int × VadInst => VadInst.speechStds t.2.2),
      apply_ite (VadInst.speechStds), ite_self]
    exact adaptGaussian_sstds_pred P hP _ _ _ _ _ _ _ _ _
      (adaptGaussian_sstds_pred P hP _ _ _ _ _ _ _ _ _ hs)
  · simp only [gmmAdaptChannel, findMinimum_nstds,
      apply_ite (fun t : Int × Int × VadInst => VadInst.noiseStds t.2.2),
      apply_ite (VadInst.noiseStds), ite_self]
    exact adaptGaussian_nstds_pred Q hQ _ _ _ _ _ _ _ _ _
      (adaptGaussian_nstds_pred Q hQ _ _ _ _ _ _ _ _ _ hn)

/-- A state property is preserved by a fold when each step preserves it. -/
theorem foldl_pres {α β : Type} (P : α → Prop) (step : α → β → α)
    (hstep : ∀ acc a, P acc → P (step acc a)) :
    ∀ (l : List β) (acc : α), P acc → P (l.foldl step acc) := by
  intro l
  induction l with
  | nil => intro acc h; exact h
  | cons a t ih => intro acc h; exact ih _ (hstep acc a h)

/-- Unfolding equation for the state component of `gmmMainBlock`. -/
theorem gmmMainBlock_snd (s : VadInst) (f : List Int) (it tt : Int) :
    (gmmMainBlock s f it tt).2 =
      { ((List.range kNumChannels).foldl
          (gmmAdaptChannel (if (gmmPass1 s f it).sumLogLikelihoodRatio ≥ tt then 1
            else (gmmPass1 s f it).vadflag) f (gmmPass1 s f it)) (s, 12800)).1 with
        frameCounter := i32 (((List.range kNumChannels).foldl
          (gmmAdaptChannel (if (gmmPass1 s f it).sumLogLikelihoodRatio ≥ tt then 1
            else (gmmPass1 s f it).vadflag) f (gmmPass1 s f it)) (s, 12800)).1.frameCounter + 1) } :=
  rfl

/-- The gated likelihood-and-adaptation block preserves `Inv` together with
the hysteresis counters and tables. -/
theorem gmmMainBlock_inv (s : VadInst) (f : List Int) (it tt : Int) (h : Inv s) :
    Inv (gmmMainBlock s f it tt).2 ∧
    (gmmMainBlock s f it tt).2.overHang = s.overHang ∧
    (gmmMainBlock s f it tt).2.numOfSpeech = s.numOfSpeech ∧
    (gmmMainBlock s f it tt).2.overHangMax1 = s.overHangMax1 ∧
    (gmmMainBlock s f it tt).2.overHangMax2 = s.overHangMax2 := by
  have hstep : ∀ (v : Int) (p1 : GmmPass1) (acc : VadInst × Int) (ch : Nat),
      (Inv acc.1 ∧ acc.1.overHang = s.overHang ∧ acc.1.numOfSpeech = s.numOfSpeech ∧
        acc.1.overHangMax1 = s.overHangMax1 ∧ acc.1.overHangMax2 = s.overHangMax2) →
      (Inv (gmmAdaptChannel v f p1 acc ch).1 ∧
        (gmmAdaptChannel v f p1 acc ch).1.overHang = s.overHang ∧
        (gmmAdaptChannel v f p1 acc ch).1.numOfSpeech = s.numOfSpeech ∧
        (gmmAdaptChannel v f p1 acc ch).1.overHangMax1 = s.overHangMax1 ∧
        (gmmAdaptChannel v f p1 acc ch).1.overHangMax2 = s.overHangMax2) := by
    rintro v p1 ⟨t, mx⟩ ch ⟨hInv, hoh, hns, hm1, hm2⟩
    simp only at hInv hoh hns hm1 hm2
    obtain ⟨i1, i2, i3, i4, i5, i6, i7, i8⟩ := hInv
    obtain ⟨f1, f2, f3, f4⟩ := gmmAdaptChannel_frame v f p1 t mx ch
    obtain ⟨g1, g2⟩ := gmmAdaptChannel_stds (fun x => kMinStd ≤ x) (fun x => (378 : Int) ≤ x)
      (fun x => by unfold kMinStd; split <;> omega)
      (fun x => by unfold kMinStd; split <;> omega)
      v f p1 t mx ch i7 i8
    refine ⟨⟨?_, ?_, ?_, ?_, ?_, ?_, g1, g2⟩, ?_, ?_, ?_, ?_⟩
    · rw [f1]; exact i1
    · rw [f1]; exact i2
    · rw [f2]; exact i3
    · rw [f2]; exact i4
    · rw [f3]; exact i5
    · rw [f4]; exact i6
    · rw [f1]; exact hoh
    · rw [f2]; exact hns
    · rw [f3]; exact hm1
    · rw [f4]; exact hm2
  have key := fun (v : Int) (p1 : GmmPass1) =>
    foldl_pres _ (gmmAdaptChannel v f p1) (hstep v p1)
  have hm := key (if (gmmPass1 s f it).sumLogLikelihoodRatio ≥ tt then 1
      else (gmmPass1 s f it).vadflag) (gmmPass1 s f it) (List.range kNumChannels)
    (s, 12800) ⟨h, rfl, rfl, rfl, rfl⟩
  rw [gmmMainBlock_snd]
  revert hm
  generalize (List.range kNumChannels).foldl
    (gmmAdaptChannel (if (gmmPass1 s f it).sumLogLikelihoodRatio ≥ tt then 1
      else (gmmPass1 s f it).vadflag) f (gmmPass1 s f it)) (s, 12800) = p
  rintro ⟨⟨i1, i2, i3, i4, i5, i6, i7, i8⟩, h1, h2, h3, h4⟩
  exact ⟨⟨i1, i2, i3, i4, i5, i6, i7, i8⟩, h1, h2, h3, h4⟩

/-- `hysteresis` preserves `Inv` when the hang-over arguments are in range. -/
theorem hysteresis_inv (v o1 o2 : Int) (s : VadInst) (h : Inv s)
    (ho1 : 0 ≤ o1 ∧ o1 ≤ 14) (ho2 : 0 ≤ o2 ∧ o2 ≤ 14) :
    Inv (hysteresis v o1 o2 s).2 := by
  obtain ⟨i1, i2, i3, i4, i5, i6, i7, i8⟩ := h
  have he : i16 (s.overHang - 1) = s.overHang - 1 :=
    i16_eq_self _ (by omega) (by omega)
  have hns : i16 (s.numOfSpeech + 1) = s.numOfSpeech + 1 :=
    i16_eq_self _ (by omega) (by omega)
  unfold hysteresis
  by_cases hv : v = 0
  · rw [if_pos hv]
    by_cases hoh : s.overHang > 0
    · rw [if_pos hoh]
      refine ⟨?_, ?_, ?_, ?_, i5, i6, i7, i8⟩ <;> dsimp only <;>
        first
        | (rw [he]; omega)
        | omega
    · rw [if_neg hoh]
      refine ⟨?_, ?_, ?_, ?_, i5, i6, i7, i8⟩ <;> dsimp only <;> omega
  · rw [if_neg hv]
    by_cases hc : i16 (s.numOfSpeech + 1) > kMaxSpeechFrames
    · rw [if_pos hc]
      refine ⟨?_, ?_, ?_, ?_, i5, i6, i7, i8⟩ <;> dsimp only <;>
        first
        | omega
        | (unfold kMaxSpeechFrames; omega)
    · rw [if_neg hc]
      rw [hns] at hc
      unfold kMaxSpeechFrames at hc
      refine ⟨?_, ?_, ?_, ?_, i5, i6, i7, i8⟩ <;> dsimp only <;>
        first
        | (rw [hns]; omega)
        | omega

/-- The hang-over thresholds read by `gmmProbability` are table entries. -/
theorem gmmThresholds_bounds (s : VadInst) (fl : Nat)
    (h1 : ∀ x ∈ s.overHangMax1, 0 ≤ x ∧ x ≤ 14)
    (h2 : ∀ x ∈ s.overHangMax2, 0 ≤ x ∧ x ≤ 14) :
    (0 ≤ (gmmThresholds s fl).1 ∧ (gmmThresholds s fl).1 ≤ 14) ∧
    (0 ≤ (gmmThresholds s fl).2.1 ∧ (gmmThresholds s fl).2.1 ≤ 14) := by
  unfold gmmThresholds
  split_ifs <;>
    exact ⟨lget_bound h1 (by omega) (by omega) _, lget_bound h2 (by omega) (by omega) _⟩

/-- `gmmProbability` preserves `Inv`. -/
theorem gmmProbability_inv (s : VadInst) (f : List Int) (tp : Int) (fl : Nat)
    (h : Inv s) : Inv (gmmProbability s f tp fl).2 := by
  have hb := gmmThresholds_bounds s fl h.2.2.2.2.1 h.2.2.2.2.2.1
  unfold gmmProbability
  rcases heq : gmmThresholds s fl with ⟨o1, o2, it, tt⟩
  rw [heq] at hb
  dsimp only at hb ⊢
  by_cases hg : tp > kMinEnergy
  · rw [if_pos hg]
    obtain ⟨hInv, h1, h2, h3, h4⟩ := gmmMainBlock_inv s f it tt h
    exact hysteresis_inv _ _ _ _ hInv hb.1 hb.2
  · rw [if_neg hg]
    exact hysteresis_inv _ _ _ _ h hb.1 hb.2
/-! ## Invariant preservation through the public entry points -/

/-- `calculateFeatures` only rewrites the filterbank state fields. -/
theorem calculateFeatures_shape (s : VadInst) (d : List Int) (n : Nat) :
    ∃ us ls hp, (calculateFeatures s d n).1 =
      { s with upperState := us, lowerState := ls, hpFilterState := hp } :=
  ⟨_, _, _, rfl⟩

theorem calcVad8khz_inv (s : VadInst) (frame : List Int) (n : Nat) (h : Inv s) :
    Inv (calcVad8khz s frame n).2 := by
  obtain ⟨us, ls, hp, hcf⟩ := calculateFeatures_shape s frame n
  have h1 : Inv (calculateFeatures s frame n).1 := by rw [hcf]; exact h
  exact gmmProbability_inv (calculateFeatures s frame n).1
    (calculateFeatures s frame n).2.1 (calculateFeatures s frame n).2.2 n h1

theorem calcVad16khz_inv (s : VadInst) (frame : List Int) (n : Nat) (h : Inv s) :
    Inv (calcVad16khz s frame n).2 := by
  unfold calcVad16khz
  exact calcVad8khz_inv _ _ _ h

theorem calcVad32khz_inv (s : VadInst) (frame : List Int) (n : Nat) (h : Inv s) :
    Inv (calcVad32khz s frame n).2 := by
  unfold calcVad32khz
  exact calcVad8khz_inv _ _ _ h

theorem calcVad48khz_inv (s : VadInst) (frame : List Int) (n : Nat) (h : Inv s) :
    Inv (calcVad48khz s frame n).2 := by
  unfold calcVad48khz
  exact calcVad8khz_inv _ _ _ h

theorem process_inv (s t : VadInst) (fs : Int) (frame : List Int) (v : Int)
    (hp : process s fs frame = some (v, t)) (h : Inv s) : Inv t := by
  unfold process at hp
  by_cases h1 : s.initFlag ≠ kInitCheck
  · rw [if_pos h1] at hp; exact absurd hp (by simp)
  · rw [if_neg h1] at hp
    by_cases h2 : frame.length = 0
    · rw [if_pos h2] at hp; exact absurd hp (by simp)
    · rw [if_neg h2] at hp
      by_cases h3 : ¬ ValidRateAndFrameLength fs (Int.ofNat frame.length) = true
      · rw [if_pos h3] at hp; exact absurd hp (by simp)
      · rw [if_neg h3] at hp
        by_cases h48 : fs = 48000
        · rw [if_pos h48] at hp
          have ht : t = (calcVad48khz s frame frame.length).2 :=
            (congrArg Prod.snd (Option.some.inj hp)).symm
          rw [ht]; exact calcVad48khz_inv s frame frame.length h
        · rw [if_neg h48] at hp
          by_cases h32 : fs = 32000
          · rw [if_pos h32] at hp
            have ht : t = (calcVad32khz s frame frame.length).2 :=
              (congrArg Prod.snd (Option.some.inj hp)).symm
            rw [ht]; exact calcVad32khz_inv s frame frame.length h
          · rw [if_neg h32] at hp
            by_cases h16 : fs = 16000
            · rw [if_pos h16] at hp
              have ht : t = (calcVad16khz s frame frame.length).2 :=
                (congrArg Prod.snd (Option.some.inj hp)).symm
              rw [ht]; exact calcVad16khz_inv s frame frame.length h
            · rw [if_neg h16] at hp
              by_cases h8 : fs = 8000
              · rw [if_pos h8] at hp
                have ht : t = (calcVad8khz s frame frame.length).2 :=
                  (congrArg Prod.snd (Option.some.inj hp)).symm
                rw [ht]; exact calcVad8khz_inv s frame frame.length h
              · rw [if_neg h8] at hp
                exact absurd hp (by simp)

theorem isSpeech_inv (s t : VadInst) (buf : List Int) (rate : Int) (b : Bool)
    (hp : IsSpeech s buf rate = some (b, t)) (h : Inv s) : Inv t := by
  unfold IsSpeech at hp
  by_cases h1 : s.initFlag ≠ kInitCheck
  · rw [if_pos h1] at hp; exact absurd hp (by simp)
  · rw [if_neg h1] at hp
    by_cases h2 : ¬ isValidSampleRate rate = true
    · rw [if_pos h2] at hp; exact absurd hp (by simp)
    · rw [if_neg h2] at hp
      by_cases h3 : ¬ ValidRateAndFrameLength rate (Int.ofNat (buf.length / 2)) = true
      · rw [if_pos h3] at hp; exact absurd hp (by simp)
      · rw [if_neg h3] at hp
        simp only [] at hp
        rcases hproc : process s rate (bytesToInt16 buf) with _ | ⟨pv, pt⟩
        · rw [hproc] at hp; exact absurd hp (by simp)
        · rw [hproc] at hp
          have ht : t = pt := (congrArg Prod.snd (Option.some.inj hp)).symm
          rw [ht]; exact process_inv s pt rate (bytesToInt16 buf) pv hproc h

theorem setModeCore_inv (s t : VadInst) (m : Int)
    (hp : setModeCore s m = some t) (h : Inv s) : Inv t := by
  obtain ⟨i1, i2, i3, i4, i5, i6, i7, i8⟩ := h
  unfold setModeCore at hp
  by_cases h0 : m = 0
  · rw [if_pos h0] at hp
    obtain rfl := Option.some.inj hp
    exact ⟨i1, i2, i3, i4,
      (by decide : ∀ x ∈ kOverHangMax1Q, (0 : Int) ≤ x ∧ x ≤ 14),
      (by decide : ∀ x ∈ kOverHangMax2Q, (0 : Int) ≤ x ∧ x ≤ 14), i7, i8⟩
  rw [if_neg h0] at hp
  by_cases hm1 : m = 1
  · rw [if_pos hm1] at hp
    obtain rfl := Option.some.inj hp
    exact ⟨i1, i2, i3, i4,
      (by decide : ∀ x ∈ kOverHangMax1LBR, (0 : Int) ≤ x ∧ x ≤ 14),
      (by decide : ∀ x ∈ kOverHangMax2LBR, (0 : Int) ≤ x ∧ x ≤ 14), i7, i8⟩
  rw [if_neg hm1] at hp
  by_cases hm2 : m = 2
  · rw [if_pos hm2] at hp
    obtain rfl := Option.some.inj hp
    exact ⟨i1, i2, i3, i4,
      (by decide : ∀ x ∈ kOverHangMax1AGG, (0 : Int) ≤ x ∧ x ≤ 14),
      (by decide : ∀ x ∈ kOverHangMax2AGG, (0 : Int) ≤ x ∧ x ≤ 14), i7, i8⟩
  rw [if_neg hm2] at hp
  by_cases hm3 : m = 3
  · rw [if_pos hm3] at hp
    obtain rfl := Option.some.inj hp
    exact ⟨i1, i2, i3, i4,
      (by decide : ∀ x ∈ kOverHangMax1VAG, (0 : Int) ≤ x ∧ x ≤ 14),
      (by decide : ∀ x ∈ kOverHangMax2VAG, (0 : Int) ≤ x ∧ x ≤ 14), i7, i8⟩
  rw [if_neg hm3] at hp
  exact absurd hp (by simp)

theorem initCore_inv (x t : VadInst) (hp : initCore x = some t) : Inv t := by
  unfold initCore setModeCore at hp
  norm_num at hp
  obtain rfl := hp.symm
  exact ⟨(by decide : (0 : Int) ≤ 0), (by decide : (0 : Int) ≤ 14),
    (by decide : (0 : Int) ≤ 0), (by decide : (0 : Int) ≤ 6),
    (by decide : ∀ x ∈ kOverHangMax1Q, (0 : Int) ≤ x ∧ x ≤ 14),
    (by decide : ∀ x ∈ kOverHangMax2Q, (0 : Int) ≤ x ∧ x ≤ 14),
    (by decide : ∀ x ∈ kSpeechDataStds, kMinStd ≤ x),
    (by decide : ∀ x ∈ kNoiseDataStds, (378 : Int) ≤ x)⟩

theorem newVad_inv (m : Int) (t : VadInst) (hp : NewVad m = some t) : Inv t := by
  unfold NewVad at hp
  by_cases hm : m < 0 ∨ m > 3
  · rw [if_pos hm] at hp; exact absurd hp (by simp)
  · rw [if_neg hm] at hp
    rcases hic : initCore createVadInst with _ | ic
    · rw [hic] at hp; exact absurd hp (by simp)
    · rw [hic] at hp
      exact setModeCore_inv ic t m hp (initCore_inv createVadInst ic hic)

/-- Every reachable state satisfies the invariant. -/
theorem reachable_inv (s : VadInst) (h : Reachable s) : Inv s := by
  induction h with
  | init mode s hp => exact newVad_inv mode s hp
  | setMode mode s t _ hp ih => exact setModeCore_inv s t mode hp ih
  | speech buf rate b s t _ hp ih => exact isSpeech_inv s t buf rate b hp ih
/-! ## Claim C4: the energy gate -/

theorem c4_gate_eq (self : VadInst) (features : List Int) (totalPower : Int)
    (frameLength : Nat) (h : totalPower ≤ kMinEnergy) :
    gmmProbability self features totalPower frameLength =
      (if self.overHang > 0 then i16 (2 + self.overHang) else 0,
       { self with
         overHang := if self.overHang > 0 then i16 (self.overHang - 1) else self.overHang,
         numOfSpeech := 0 }) := by
  have hgate : ¬ (totalPower > kMinEnergy) := by omega
  simp only [gmmProbability, if_neg hgate, hysteresis, if_pos rfl]
  by_cases hoh : self.overHang > 0
  · simp [hoh]
  · simp [hoh]

/-! ## Claim C5 support: hysteresis behaviour under the invariant -/

theorem hysteresis_zero_eq (s : VadInst) (o1 o2 : Int)
    (h1 : 0 ≤ s.overHang) (h2 : s.overHang ≤ 14) :
    hysteresis 0 o1 o2 s =
      if s.overHang > 0 then
        (2 + s.overHang, { s with overHang := s.overHang - 1, numOfSpeech := 0 })
      else (0, { s with numOfSpeech := 0 }) := by
  unfold hysteresis
  rw [if_pos rfl]
  by_cases hoh : s.overHang > 0
  · rw [if_pos hoh, if_pos hoh, i16_eq_self _ (by omega) (by omega),
      i16_eq_self _ (by omega) (by omega)]
  · rw [if_neg hoh, if_neg hoh]

theorem hysteresis_one_eq (s : VadInst) (o1 o2 : Int)
    (h1 : 0 ≤ s.numOfSpeech) (h2 : s.numOfSpeech ≤ 6) :
    hysteresis 1 o1 o2 s =
      (1, { s with
            numOfSpeech := if s.numOfSpeech + 1 > kMaxSpeechFrames then kMaxSpeechFrames
              else s.numOfSpeech + 1,
            overHang := if s.numOfSpeech + 1 > kMaxSpeechFrames then o2 else o1 }) := by
  unfold hysteresis
  rw [if_neg (by omega : ¬ (1 : Int) = 0)]
  rw [i16_eq_self _ (by omega) (by omega)]
  by_cases hc : s.numOfSpeech + 1 > kMaxSpeechFrames
  · rw [if_pos hc, if_pos hc, if_pos hc]
  · rw [if_neg hc, if_neg hc, if_neg hc]
/-! ## Claim C6 support: the minimum tracker interface -/

theorem ageLoop_len : ∀ (fuel : Nat) (i : Nat) (age sv : List Int),
    age.length = 16 → sv.length = 16 →
    (ageLoop age sv i fuel).1.length = 16 ∧ (ageLoop age sv i fuel).2.length = 16 := by
  intro fuel
  induction fuel with
  | zero => intro i age sv h1 h2; exact ⟨h1, h2⟩
  | succ n ih =>
    intro i age sv h1 h2
    unfold ageLoop
    by_cases hi : i < 16
    · rw [if_pos hi]
      by_cases ha : lget age i ≠ 100
      · rw [if_pos ha]
        exact ih (i + 1) _ _ (by simp [lset, h1]) h2
      · rw [if_neg ha]
        refine ih (i + 1) _ _ ?_ ?_ <;>
          simp [List.length_eraseIdx, h1, h2, hi]
    · rw [if_neg hi]
      exact ⟨h1, h2⟩

theorem findPosition_range (sv : List Int) (f : Int) :
    -1 ≤ findPosition sv f ∧ findPosition sv f ≤ 15 := by
  unfold findPosition
  repeat' split
  all_goals omega

theorem insertAt_len (l : List Int) (pos : Nat) (v : Int)
    (h : l.length = 16) (hpos : pos ≤ 15) : (insertAt l pos v).length = 16 := by
  unfold insertAt
  simp [h]
  omega

theorem slice_of_splice (l x : List Int) (off : Nat) (hoff : off + 16 ≤ l.length)
    (hx : x.length = 16) :
    ((l.take off ++ x ++ l.drop (off + 16)).drop off).take 16 = x := by
  rw [List.append_assoc, List.drop_left' (by simp; omega), List.take_left' hx]

theorem lget_lset_self (l : List Int) (i : Nat) (v : Int) (h : i < l.length) :
    lget (lset l i v) i = v := by
  unfold lget lset
  simp [List.getElem?_set_self, h]

set_option maxHeartbeats 4000000 in
/-- Claim C6 (amended): on every `findMinimum` call the median estimate is
the third-smallest stored value when `frameCounter > 2`, the smallest when
`0 < frameCounter ≤ 2`, and the constant 1600 on the very first frame; the
returned value is the stored mean smoothed towards that estimate with
`alpha` = `kSmoothingDown` = 6553 when the estimate is below the stored
mean, `kSmoothingUp` = 32439 when `frameCounter > 0` otherwise, and 0 on
the first frame; the result is written back into `meanValue[channel]`. -/
theorem c6_median_smoothing (s : VadInst) (f : Int) (ch : Nat) (hch : ch < 6)
    (hlv : s.lowValueVector.length = 96) (hiv : s.indexVector.length = 96)
    (hmv : s.meanValue.length = 6) :
    (findMinimum s f ch).1 =
      i16 (sar (i32 (i32 (i32 ((smoothingAlpha s f ch + 1) * lget s.meanValue ch) +
        i32 ((32767 - smoothingAlpha s f ch) * medianEstimate s f ch)) + 16384)) 15) ∧
    (findMinimum s f ch).1 = lget (findMinimum s f ch).2.meanValue ch ∧
    (s.frameCounter > 2 → medianEstimate s f ch = lget (updatedWindow s f ch) 2) ∧
    (0 < s.frameCounter → ¬ s.frameCounter > 2 →
      medianEstimate s f ch = lget (updatedWindow s f ch) 0) ∧
    (s.frameCounter = 0 → medianEstimate s f ch = 1600) := by
  have hlen0 : ((s.indexVector.drop (ch * 16)).take 16).length = 16 := by
    simp [hiv]; omega
  have hlen1 : ((s.lowValueVector.drop (ch * 16)).take 16).length = 16 := by
    simp [hlv]; omega
  have hage := ageLoop_len 16 0 ((s.indexVector.drop (ch * 16)).take 16)
    ((s.lowValueVector.drop (ch * 16)).take 16) hlen0 hlen1
  have hsv2 : (if findPosition
        (ageLoop ((s.indexVector.drop (ch * 16)).take 16)
          ((s.lowValueVector.drop (ch * 16)).take 16) 0 16).2 f > -1 then
      (insertAt (ageLoop ((s.indexVector.drop (ch * 16)).take 16)
          ((s.lowValueVector.drop (ch * 16)).take 16) 0 16).1
        (findPosition (ageLoop ((s.indexVector.drop (ch * 16)).take 16)
          ((s.lowValueVector.drop (ch * 16)).take 16) 0 16).2 f).toNat 1,
       insertAt (ageLoop ((s.indexVector.drop (ch * 16)).take 16)
          ((s.lowValueVector.drop (ch * 16)).take 16) 0 16).2
        (findPosition (ageLoop ((s.indexVector.drop (ch * 16)).take 16)
          ((s.lowValueVector.drop (ch * 16)).take 16) 0 16).2 f).toNat f)
    else (ageLoop ((s.indexVector.drop (ch * 16)).take 16)
          ((s.lowValueVector.drop (ch * 16)).take 16) 0 16)).2.length = 16 := by
    split
    · exact insertAt_len _ _ _ hage.2
        (by
          have := findPosition_range (ageLoop ((s.indexVector.drop (ch * 16)).take 16)
            ((s.lowValueVector.drop (ch * 16)).take 16) 0 16).2 f
          omega)
    · exact hage.2
  have hwin : updatedWindow s f ch = (if findPosition
        (ageLoop ((s.indexVector.drop (ch * 16)).take 16)
          ((s.lowValueVector.drop (ch * 16)).take 16) 0 16).2 f > -1 then
      (insertAt (ageLoop ((s.indexVector.drop (ch * 16)).take 16)
          ((s.lowValueVector.drop (ch * 16)).take 16) 0 16).1
        (findPosition (ageLoop ((s.indexVector.drop (ch * 16)).take 16)
          ((s.lowValueVector.drop (ch * 16)).take 16) 0 16).2 f).toNat 1,
       insertAt (ageLoop ((s.indexVector.drop (ch * 16)).take 16)
          ((s.lowValueVector.drop (ch * 16)).take 16) 0 16).2
        (findPosition (ageLoop ((s.indexVector.drop (ch * 16)).take 16)
          ((s.lowValueVector.drop (ch * 16)).take 16) 0 16).2 f).toNat f)
    else (ageLoop ((s.indexVector.drop (ch * 16)).take 16)
          ((s.lowValueVector.drop (ch * 16)).take 16) 0 16)).2 := by
    unfold updatedWindow findMinimum
    exact slice_of_splice _ _ _ (by omega) hsv2
  refine ⟨?_, ?_, ?_, ?_, ?_⟩
  · unfold smoothingAlpha medianEstimate
    rw [hwin]
    rfl
  · have hm : (findMinimum s f ch).2.meanValue =
      lset s.meanValue ch (findMinimum s f ch).1 := rfl
    rw [hm, lget_lset_self _ _ _ (by omega)]
  · intro h
    unfold medianEstimate
    rw [if_pos h]
  · intro h1 h2
    unfold medianEstimate
    rw [if_neg h2, if_pos (by omega : s.frameCounter > 0)]
  · intro h
    unfold medianEstimate
    rw [if_neg (by omega : ¬ s.frameCounter > 2),
      if_neg (by omega : ¬ s.frameCounter > 0)]
/-! ## Claim C7 support: the 48 kHz chunking loop -/

theorem db2isCombine_length (halves : List Int) :
    ∀ (fuel i : Nat), (db2isCombine halves i fuel).length = 2 * fuel := by
  intro fuel
  induction fuel with
  | zero => intro i; rfl
  | succ n ih =>
    intro i
    show (_ :: _ :: db2isCombine halves (i + 2) n).length = 2 * (n + 1)
    simp [ih]
    omega

theorem resampleFull_len (c : List Int) (st : State48To8) (m : List Int) :
    ((resample48khzTo8khzFull c st m).1).length = 80 :=
  db2isCombine_length _ 40 0

theorem resampleChunks_length (f : List Int) :
    ∀ (k i : Nat) (st : State48To8) (tm : List Int),
      (resampleChunks f k i st tm).length = k := by
  intro k
  induction k with
  | zero => intro i st tm; rfl
  | succ n ih =>
    intro i st tm
    show (_ :: resampleChunks f n (i + 1) _ _).length = n + 1
    simp [ih]

theorem resampleChunks_mem_length (f : List Int) :
    ∀ (k i : Nat) (st : State48To8) (tm : List Int) (o : List Int),
      o ∈ resampleChunks f k i st tm → o.length = 80 := by
  intro k
  induction k with
  | zero => intro i st tm o h; exact absurd h (by simp [resampleChunks])
  | succ n ih =>
    intro i st tm o h
    rcases (by simpa [resampleChunks] using h :
        o = (resample48khzTo8khzFull ((f.drop (i * 480)).take 480) st tm).1 ∨
        o ∈ resampleChunks f n (i + 1)
          (resample48khzTo8khzFull ((f.drop (i * 480)).take 480) st tm).2.1
          (resample48khzTo8khzFull ((f.drop (i * 480)).take 480) st tm).2.2) with
      h1 | h1
    · rw [h1]; exact resampleFull_len _ _ _
    · exact ih _ _ _ _ h1

theorem splice_length (l sub : List Int) (pos : Nat) (h : pos + sub.length ≤ l.length) :
    (splice l pos sub).length = l.length := by
  simp [splice]
  omega

theorem splice_take (l sub : List Int) (pos : Nat) (h : pos + sub.length ≤ l.length) :
    (splice l pos sub).take (pos + sub.length) = l.take pos ++ sub := by
  unfold splice
  rw [List.append_assoc, ← List.append_assoc (l.take pos) sub,
    List.take_left' (by simp; omega)]

theorem splice_drop (l sub : List Int) (pos m : Nat) (h : pos + sub.length ≤ l.length)
    (hm : pos + sub.length ≤ m) : (splice l pos sub).drop m = l.drop m := by
  unfold splice
  have h2 : ((l.take pos ++ sub) ++ l.drop (pos + sub.length)).drop m
      = (l.drop (pos + sub.length)).drop (m - (pos + sub.length)) := by
    rw [show m = (l.take pos ++ sub).length + (m - (pos + sub.length)) by
      simp; omega]
    rw [List.drop_append]
    congr 1
    simp
    omega
  rw [h2, List.drop_drop]
  congr 1
  omega

theorem calc48Loop_flatten (f : List Int) :
    ∀ (k i : Nat) (nb : List Int) (st : State48To8) (tm : List Int),
      nb.length = 240 → (i + k) * 80 ≤ 240 →
      (calc48Loop f k i nb st tm).1 =
        nb.take (i * 80) ++ (resampleChunks f k i st tm).flatten ++
          nb.drop ((i + k) * 80) := by
  intro k
  induction k with
  | zero =>
    intro i nb st tm h1 h2
    show nb = nb.take (i * 80) ++ (List.flatten []) ++ nb.drop ((i + 0) * 80)
    simp [List.take_append_drop]
  | succ n ih =>
    intro i nb st tm h1 h2
    simp only [calc48Loop, resampleChunks]
    have hr := resampleFull_len ((f.drop (i * 480)).take 480) st tm
    revert hr
    generalize resample48khzTo8khzFull ((f.drop (i * 480)).take 480) st tm = r
    intro hr
    rw [ih (i + 1) (splice nb (i * 80) r.1) r.2.1 r.2.2
      (by rw [splice_length] <;> omega) (by omega)]
    rw [show (i + 1) * 80 = i * 80 + r.1.length by omega,
      splice_take _ _ _ (by omega), splice_drop _ _ _ _ (by omega) (by omega)]
    rw [show i + 1 + n = i + (n + 1) by omega]
    simp [List.append_assoc]
/-- Claim C7: for a 48 kHz input of N samples with N in {480, 960, 1440},
`calcVad48khz` cuts the input into N/480 subframes of 10 ms, resamples each
in order through the persistent 48-to-8 kHz state, obtains 80 output
samples per subframe — (N/480)·80 = N/6 in total, filling the narrowband
buffer ahead of its zero tail — and runs the 8 kHz pipeline with frame
length N/6. -/
theorem c7_chunked_resampling (inst : VadInst) (frame : List Int) (N : Nat)
    (hN : N = 480 ∨ N = 960 ∨ N = 1440) (hlen : frame.length = N) :
    (resampleChunks frame (N / 480) 0 (vadResampleState inst)
        (List.replicate (480 + 256) 0)).length = N / 480 ∧
    (∀ o ∈ resampleChunks frame (N / 480) 0 (vadResampleState inst)
        (List.replicate (480 + 256) 0), o.length = 80) ∧
    (N / 480) * 80 = N / 6 ∧
    vad48NB inst frame N =
      (resampleChunks frame (N / 480) 0 (vadResampleState inst)
        (List.replicate (480 + 256) 0)).flatten ++ List.replicate (240 - N / 6) 0 ∧
    calcVad48khz inst frame N =
      calcVad8khz
        { inst with s48_24 := (vad48State inst frame N).s48_24,
                    s24_24 := (vad48State inst frame N).s24_24,
                    s24_16 := (vad48State inst frame N).s24_16,
                    s16_8 := (vad48State inst frame N).s16_8 }
        (vad48NB inst frame N) (N / 6) := by
  refine ⟨resampleChunks_length frame _ _ _ _,
    fun o ho => resampleChunks_mem_length frame _ _ _ _ o ho, ?_, ?_, rfl⟩
  · rcases hN with rfl | rfl | rfl <;> norm_num
  · unfold vad48NB
    rcases hN with rfl | rfl | rfl <;>
      rw [calc48Loop_flatten frame _ 0 _ _ _ (by simp) (by norm_num),
        List.take_zero, List.nil_append, List.drop_replicate]

/-- Claim C7 witness: one 480-sample zero frame. -/
theorem c7_chunked_resampling_witness :
    ((480 : Nat) = 480 ∨ (480 : Nat) = 960 ∨ (480 : Nat) = 1440) ∧
    (List.replicate 480 (0 : Int)).length = 480 ∧
    vad48NB createVadInst (List.replicate 480 0) 480 =
      (resampleChunks (List.replicate 480 0) (480 / 480) 0 (vadResampleState createVadInst)
        (List.replicate (480 + 256) 0)).flatten ++ List.replicate (240 - 480 / 6) 0 :=
  ⟨Or.inl rfl, by simp,
   (c7_chunked_resampling createVadInst (List.replicate 480 0) 480 (Or.inl rfl) (by simp)).2.2.2.1⟩
/-! ## Claim C2 support: the validation grid -/

theorem validRate_iff (rate samples : Int) :
    ValidRateAndFrameLength rate samples = true ↔
      ((rate = 8000 ∨ rate = 16000 ∨ rate = 32000 ∨ rate = 48000) ∧
        (samples = rate * 10 / 1000 ∨ samples = rate * 20 / 1000 ∨
          samples = rate * 30 / 1000)) := by
  by_cases h8 : rate = 8000
  · subst h8; simp [ValidRateAndFrameLength, validRates, frameLengthOk, List.find?]
  · by_cases h16 : rate = 16000
    · subst h16; simp [ValidRateAndFrameLength, validRates, frameLengthOk, List.find?]
    · by_cases h32 : rate = 32000
      · subst h32; simp [ValidRateAndFrameLength, validRates, frameLengthOk, List.find?]
      · by_cases h48 : rate = 48000
        · subst h48; simp [ValidRateAndFrameLength, validRates, frameLengthOk, List.find?]
        · have h8' : (8000 == rate) = false := by simp [beq_iff_eq]; omega
          have h16' : (16000 == rate) = false := by simp [beq_iff_eq]; omega
          have h32' : (32000 == rate) = false := by simp [beq_iff_eq]; omega
          have h48' : (48000 == rate) = false := by simp [beq_iff_eq]; omega
          simp [ValidRateAndFrameLength, validRates, List.find?, h8', h16', h32', h48']
          tauto

theorem validRate_mem_iff (rate samples : Int) :
    ValidRateAndFrameLength rate samples = true ↔ (rate, samples) ∈ gridPairs := by
  rw [validRate_iff]
  constructor
  · rintro ⟨hr | hr | hr | hr, hs⟩ <;> subst hr <;>
      simp [gridPairs] <;> omega
  · intro h
    simp [gridPairs] at h
    rcases h with h | h | h | h | h | h | h | h | h | h | h | h <;>
      (obtain ⟨h1, h2⟩ := h; subst h1; subst h2; norm_num)
/-! ## Claim C10 support: odd-length byte buffers -/

theorem lget_take (l : List Int) (n m : Nat) (h : m < n) :
    lget (l.take n) m = lget l m := by
  unfold lget
  rw [List.getD_eq_getElem?_getD, List.getD_eq_getElem?_getD,
    List.getElem?_take_of_lt h]

theorem bytesToInt16_length (buf : List Int) :
    (bytesToInt16 buf).length = buf.length / 2 := by
  simp [bytesToInt16]

theorem bytesToInt16_dropLast (buf : List Int) (n : Nat) (h : buf.length = 2 * n + 1) :
    bytesToInt16 (buf.take (2 * n)) = bytesToInt16 buf := by
  unfold bytesToInt16
  have h1 : (buf.take (2 * n)).length = 2 * n := by simp [h]
  rw [h1, h, show 2 * n / 2 = n by omega, show (2 * n + 1) / 2 = n by omega]
  apply List.map_congr_left
  intro i hi
  have hi2 : i < n := List.mem_range.mp hi
  rw [lget_take _ _ _ (by omega), lget_take _ _ _ (by omega)]

theorem process_accepts (s : VadInst) (A : List Int) (rate : Int) (n : Nat)
    (hinit : s.initFlag = kInitCheck) (hA : A.length = n) (hn : n ≠ 0)
    (hv : ValidRateAndFrameLength rate (Int.ofNat n) = true)
    (hset : rate = 8000 ∨ rate = 16000 ∨ rate = 32000 ∨ rate = 48000) :
    ∃ v t, process s rate A = some (v, t) := by
  unfold process
  rw [if_neg (by simp [hinit]), if_neg (by simp [hA, hn]), hA,
    if_neg (by simpa using hv)]
  rcases hset with rfl | rfl | rfl | rfl
  · rcases hc : calcVad8khz s A n with ⟨v, t⟩
    rw [if_neg (by norm_num), if_neg (by norm_num), if_neg (by norm_num), if_pos rfl]
    exact ⟨_, _, rfl⟩
  · rcases hc : calcVad16khz s A n with ⟨v, t⟩
    rw [if_neg (by norm_num), if_neg (by norm_num), if_pos rfl]
    exact ⟨_, _, rfl⟩
  · rcases hc : calcVad32khz s A n with ⟨v, t⟩
    rw [if_neg (by norm_num), if_pos rfl]
    exact ⟨_, _, rfl⟩
  · rcases hc : calcVad48khz s A n with ⟨v, t⟩
    rw [if_pos rfl]
    exact ⟨_, _, rfl⟩

/-- Claim C10: `IsSpeech` computes the frame length as `len(buf) / 2` with
truncating division, so a byte buffer of odd length 2n+1 whose
`(sampleRate, n)` is a valid grid pair is accepted (the call returns
`some`) and processed exactly as if the trailing byte were absent: only
the first 2n bytes are decoded. -/
theorem c10_odd_length (s : VadInst) (buf : List Int) (rate : Int) (n : Nat)
    (hinit : s.initFlag = kInitCheck) (hlen : buf.length = 2 * n + 1)
    (hv : ValidRateAndFrameLength rate (Int.ofNat n) = true) :
    (∃ b t, IsSpeech s buf rate = some (b, t)) ∧
    IsSpeech s buf rate = IsSpeech s (buf.take (2 * n)) rate ∧
    bytesToInt16 buf = bytesToInt16 (buf.take (2 * n)) := by
  have hset : rate = 8000 ∨ rate = 16000 ∨ rate = 32000 ∨ rate = 48000 :=
    ((validRate_iff _ _).mp hv).1
  have hn : n ≠ 0 := by
    obtain ⟨hr, hs⟩ := (validRate_iff _ _).mp hv
    rcases hr with rfl | rfl | rfl | rfl <;> rcases hs with h | h | h <;>
      norm_num at h <;> omega
  have hb2 : bytesToInt16 buf = bytesToInt16 (buf.take (2 * n)) :=
    (bytesToInt16_dropLast buf n hlen).symm
  have hfl : buf.length / 2 = n := by omega
  have htk : (buf.take (2 * n)).length = 2 * n := by simp [hlen]
  have htl : (buf.take (2 * n)).length / 2 = n := by omega
  have hival : isValidSampleRate rate = true := by
    rcases hset with rfl | rfl | rfl | rfl <;> rfl
  refine ⟨?_, ?_, hb2⟩
  · obtain ⟨v, t, hp⟩ := process_accepts s (bytesToInt16 buf) rate n hinit
      (by rw [bytesToInt16_length, hfl]) hn hv hset
    unfold IsSpeech
    rw [if_neg (by simp [hinit]), if_neg (by simp [hival]), hfl,
      if_neg (by simpa using hv)]
    simp only []
    rw [hp]
    exact ⟨_, _, rfl⟩
  · unfold IsSpeech
    rw [hfl, htl, hb2]
/-! ## Claim C9 support: blockwise reading of calculateEnergy -/

theorem ceBlocks_short (l : List Int) (e s : Int) (h : l.length ≤ 3) :
    ceBlocks l e s = calculateEnergyPerSample l e s := by
  match l with
  | [] => rfl
  | [a] => rfl
  | [a, b] => rfl
  | [a, b, c] => rfl
  | a :: b :: c :: d :: t => simp at h

theorem ceTail_eq (v : List Int) :
    ∀ (fuel : Nat) (i : Nat) (e s : Int), v.length ≤ i + fuel →
      ceTail v v.length i e s fuel = calculateEnergyPerSample (v.drop i) e s := by
  intro fuel
  induction fuel with
  | zero =>
    intro i e s h
    rw [List.drop_eq_nil_of_le (by omega)]
    rfl
  | succ n ih =>
    intro i e s h
    by_cases hi : i < v.length
    · have hd : v.drop i = v.get ⟨i, hi⟩ :: v.drop (i + 1) := List.drop_eq_get_cons hi
      rw [hd]
      show (if i < v.length then _ else _) = _
      rw [if_pos hi]
      have hg : lget v i = v.get ⟨i, hi⟩ := by
        simp [lget, List.getD_eq_getElem?_getD, List.getElem?_eq_getElem hi]
      simp only [ceTail, hg]
      exact ih (i + 1) _ _ (by omega)
    · rw [List.drop_eq_nil_of_le (by omega)]
      simp only [ceTail, if_neg hi]
      rfl

theorem ceMain_eq (v : List Int) :
    ∀ (fuel : Nat) (i : Nat) (e s : Int), v.length ≤ i + fuel →
      (let (j, e2, s2) := ceUnrolled v v.length i e s fuel
       ceTail v v.length j e2 s2 v.length) = ceBlocks (v.drop i) e s := by
  intro fuel
  induction fuel with
  | zero =>
    intro i e s h
    rw [List.drop_eq_nil_of_le (by omega)]
    simp only [ceUnrolled]
    rw [ceTail_eq v v.length i e s (by omega), List.drop_eq_nil_of_le (by omega)]
    rfl
  | succ n ih =>
    intro i e s h
    by_cases hi : i + 3 < v.length
    · have h0 : i < v.length := by omega
      have h1 : i + 1 < v.length := by omega
      have h2 : i + 2 < v.length := by omega
      have hd : v.drop i = v.get ⟨i, h0⟩ :: v.get ⟨i + 1, h1⟩ :: v.get ⟨i + 2, h2⟩ ::
          v.get ⟨i + 3, hi⟩ :: v.drop (i + 4) := by
        rw [List.drop_eq_get_cons h0, List.drop_eq_get_cons h1, List.drop_eq_get_cons h2,
          List.drop_eq_get_cons hi]
      rw [hd]
      have hg : ∀ (k : Nat) (hk : k < v.length), lget v k = v.get ⟨k, hk⟩ := by
        intro k hk
        simp [lget, List.getD_eq_getElem?_getD, List.getElem?_eq_getElem hk]
      simp only [ceUnrolled, if_pos hi, hg i h0, hg (i + 1) h1, hg (i + 2) h2, hg (i + 3) hi]
      simp only [ceBlocks]
      rcases hge : ceGuard (u32 (e + u32 (i32 (i32 (i32 (i32 (v.get ⟨i, h0⟩ * v.get ⟨i, h0⟩) +
        i32 (v.get ⟨i + 1, h1⟩ * v.get ⟨i + 1, h1⟩)) + i32 (v.get ⟨i + 2, h2⟩ * v.get ⟨i + 2, h2⟩)) +
        i32 (v.get ⟨i + 3, hi⟩ * v.get ⟨i + 3, hi⟩))))) s with ⟨e3, s3⟩
      exact ih (i + 4) e3 s3 (by omega)
    · simp only [ceUnrolled, if_neg hi]
      rw [ceTail_eq v v.length i e s (by omega)]
      rw [ceBlocks_short _ _ _ (by simp; omega)]
/-! ## The verified claims -/

/-- Claim C2: `ValidRateAndFrameLength` accepts exactly the pairs with
`rate ∈ {8000, 16000, 32000, 48000}` and `samples ∈ {rate·10/1000,
rate·20/1000, rate·30/1000}`, i.e. exactly the twelve grid pairs, and in
particular rejects (44100, 441), (8000, 100) and (16000, 100). -/
theorem c2_validation_grid (rate samples : Int) :
    (ValidRateAndFrameLength rate samples = true ↔
      ((rate = 8000 ∨ rate = 16000 ∨ rate = 32000 ∨ rate = 48000) ∧
        (samples = rate * 10 / 1000 ∨ samples = rate * 20 / 1000 ∨
          samples = rate * 30 / 1000))) ∧
    (ValidRateAndFrameLength rate samples = true ↔ (rate, samples) ∈ gridPairs) ∧
    ValidRateAndFrameLength 44100 441 = false ∧
    ValidRateAndFrameLength 8000 100 = false ∧
    ValidRateAndFrameLength 16000 100 = false :=
  ⟨validRate_iff rate samples, validRate_mem_iff rate samples,
   by decide, by decide, by decide⟩

/-- Claim C3 counterexample: immediately after initialization the noise
stds are the tabulated `kNoiseDataStds`, whose first entry 378 is below
`kMinStd` = 384, so the claimed floor does not hold for `noise_stds`. -/
theorem c3_fresh_noise_std_cex :
    ¬ (∀ x ∈ ((NewVad 0).getD createVadInst).noiseStds, kMinStd ≤ x) := by decide

/-- Claim C3 (amended): at every reachable state every entry of
`speech_stds` is ≥ `kMinStd` = 384, while every entry of `noise_stds` is
≥ 378 (the smallest tabulated initial noise std; the `kMinStd` floor is
only enforced on the updated entries, and the initial table starts below
it). -/
theorem c3_std_floor (s : VadInst) (h : Reachable s) :
    (∀ x ∈ s.speechStds, kMinStd ≤ x) ∧ (∀ x ∈ s.noiseStds, (378 : Int) ≤ x) := by
  obtain ⟨_, _, _, _, _, _, i7, i8⟩ := reachable_inv s h
  exact ⟨i7, i8⟩

/-- Claim C3 witness: the speech-std floor at the freshly created detector,
instantiated at its first entry 492. -/
theorem c3_std_floor_witness : kMinStd ≤ (492 : Int) :=
  (c3_std_floor _ (Reachable.init 0 _ rfl)).1 492 (by decide)

/-- Claim C4: whenever `totalPower ≤ kMinEnergy` = 10, `gmmProbability`
skips the likelihood and adaptation block: the GMM parameters, the
minimum-tracker state and `frameCounter` are unchanged, `numOfSpeech` is
reset to 0, and the returned label is `2 + overHang` when `overHang > 0`
and 0 otherwise. -/
theorem c4_energy_gate (self : VadInst) (features : List Int) (totalPower : Int)
    (frameLength : Nat) (hp : totalPower ≤ kMinEnergy)
    (h1 : 0 ≤ self.overHang) (h2 : self.overHang ≤ 14) :
    (gmmProbability self features totalPower frameLength).2.noiseMeans =
      self.noiseMeans ∧
    (gmmProbability self features totalPower frameLength).2.speechMeans =
      self.speechMeans ∧
    (gmmProbability self features totalPower frameLength).2.noiseStds =
      self.noiseStds ∧
    (gmmProbability self features totalPower frameLength).2.speechStds =
      self.speechStds ∧
    (gmmProbability self features totalPower frameLength).2.lowValueVector =
      self.lowValueVector ∧
    (gmmProbability self features totalPower frameLength).2.indexVector =
      self.indexVector ∧
    (gmmProbability self features totalPower frameLength).2.meanValue =
      self.meanValue ∧
    (gmmProbability self features totalPower frameLength).2.frameCounter =
      self.frameCounter ∧
    (gmmProbability self features totalPower frameLength).2.numOfSpeech = 0 ∧
    (gmmProbability self features totalPower frameLength).1 =
      (if self.overHang > 0 then 2 + self.overHang else 0) := by
  rw [c4_gate_eq self features totalPower frameLength hp]
  refine ⟨rfl, rfl, rfl, rfl, rfl, rfl, rfl, rfl, rfl, ?_⟩
  by_cases h : self.overHang > 0
  · rw [if_pos h, if_pos h, i16_eq_self _ (by omega) (by omega), if_pos h]
  · rw [if_neg h, if_neg h, if_neg h]

/-- Claim C4 witness: the energy gate at the zeroed detector state with
`totalPower` = 5. -/
theorem c4_energy_gate_witness :
    (5 : Int) ≤ kMinEnergy ∧ 0 ≤ createVadInst.overHang ∧
    createVadInst.overHang ≤ 14 ∧
    (gmmProbability createVadInst [] 5 80).2.noiseMeans = createVadInst.noiseMeans ∧
    (gmmProbability createVadInst [] 5 80).1 =
      (if createVadInst.overHang > 0 then 2 + createVadInst.overHang else 0) :=
  ⟨by decide, by decide, by decide,
   (c4_energy_gate createVadInst [] 5 80 (by decide) (by decide) (by decide)).1,
   (c4_energy_gate createVadInst [] 5 80 (by decide) (by decide)
     (by decide)).2.2.2.2.2.2.2.2.2⟩

/-- Claim C5: at every reachable state the hysteresis counters satisfy
`overHang ≥ 0` and `numOfSpeech ∈ [0, 6]`, and the hysteresis step behaves
as specified: on `vadflag = 0` with `overHang > 0` it returns `2 + overHang`,
decrements `overHang` and resets `numOfSpeech`; on `vadflag = 1` it
increments `numOfSpeech` clamped at `kMaxSpeechFrames` = 6 and loads
`overHang` from `overhead2` at the clamp and from `overhead1` otherwise. -/
theorem c5_hysteresis (s : VadInst) (h : Reachable s) (o1 o2 : Int) :
    (0 ≤ s.overHang ∧ 0 ≤ s.numOfSpeech ∧ s.numOfSpeech ≤ 6) ∧
    hysteresis 0 o1 o2 s =
      (if s.overHang > 0 then
        (2 + s.overHang, { s with overHang := s.overHang - 1, numOfSpeech := 0 })
      else (0, { s with numOfSpeech := 0 })) ∧
    hysteresis 1 o1 o2 s =
      (1, { s with
            numOfSpeech := if s.numOfSpeech + 1 > kMaxSpeechFrames then
              kMaxSpeechFrames else s.numOfSpeech + 1,
            overHang := if s.numOfSpeech + 1 > kMaxSpeechFrames then o2
              else o1 }) := by
  obtain ⟨i1, i2, i3, i4, _⟩ := reachable_inv s h
  exact ⟨⟨i1, i3, i4⟩, hysteresis_zero_eq s o1 o2 i1 i2,
    hysteresis_one_eq s o1 o2 i3 i4⟩

/-- Claim C5 witness: the counter bounds at the freshly created detector. -/
theorem c5_hysteresis_witness :
    0 ≤ ((NewVad 0).getD createVadInst).overHang ∧
    0 ≤ ((NewVad 0).getD createVadInst).numOfSpeech ∧
    ((NewVad 0).getD createVadInst).numOfSpeech ≤ 6 :=
  (c5_hysteresis _ (Reachable.init 0 _ rfl) 4 9).1

/-- Claim C6 counterexample: on the very first frame (`frameCounter` = 0)
`findMinimum` ignores the stored window entirely — the median estimate is
the constant 1600 and the smoothing coefficient is 0 — so the returned
value is 1600 and not the claimed smoothing of the smallest stored value
(which would use `kSmoothingDown` since the new feature 50 is below the
stored mean 1600). -/
theorem c6_first_frame_cex :
    (findMinimum ((NewVad 0).getD createVadInst) 50 0).1 = 1600 ∧
    lget (updatedWindow ((NewVad 0).getD createVadInst) 50 0) 0 = 50 ∧
    ((NewVad 0).getD createVadInst).frameCounter = 0 ∧
    (findMinimum ((NewVad 0).getD createVadInst) 50 0).1 ≠
      i16 (sar (i32 (i32 (i32 ((kSmoothingDown + 1) *
          lget ((NewVad 0).getD createVadInst).meanValue 0) +
        i32 ((32767 - kSmoothingDown) *
          lget (updatedWindow ((NewVad 0).getD createVadInst) 50 0) 0)) +
        16384)) 15) := by decide

/-- Claim C6 witness: the amended median/smoothing law at the freshly
created detector with feature value 50 on channel 0. -/
theorem c6_median_smoothing_witness :
    (0 : Nat) < 6 ∧
    ((NewVad 0).getD createVadInst).lowValueVector.length = 96 ∧
    (((NewVad 0).getD createVadInst).frameCounter = 0 →
      medianEstimate ((NewVad 0).getD createVadInst) 50 0 = 1600) :=
  ⟨by decide, by decide,
   (c6_median_smoothing ((NewVad 0).getD createVadInst) 50 0 (by decide)
     (by decide) (by decide) (by decide)).2.2.2.2⟩

/-- Claim C8 counterexample: `weightedAverage` offsets and overwrites both
Gaussian slots `data[0]` and `data[kNumChannels]`, so with offset 10 the
second slot does not keep its original value 200 and the weighted sum uses
the offset value 210, not 200. -/
theorem c8_cex :
    ¬ ((weightedAverage [100, 0, 0, 0, 0, 0, 200, 0, 0, 0, 0, 0] 10
          [1, 0, 0, 0, 0, 0, 1, 0, 0, 0, 0, 0]).2 =
        [110, 0, 0, 0, 0, 0, 200, 0, 0, 0, 0, 0] ∧
      (weightedAverage [100, 0, 0, 0, 0, 0, 200, 0, 0, 0, 0, 0] 10
          [1, 0, 0, 0, 0, 0, 1, 0, 0, 0, 0, 0]).1 = 310) := by decide

/-- Claim C8 (amended): on a 12-entry buffer `weightedAverage` adds the
offset into both slots 0 and `kNumChannels` = 6, writes both back, and the
returned sum weights the two offset values by `weights[0]` and
`weights[6]`. -/
theorem c8_amended (d0 d1 d2 d3 d4 d5 d6 d7 d8 d9 d10 d11 offset : Int)
    (w : List Int) :
    weightedAverage [d0, d1, d2, d3, d4, d5, d6, d7, d8, d9, d10, d11] offset w =
      (i32 (i32 (i16 (d0 + offset) * lget w 0) + i32 (i16 (d6 + offset) * lget w 6)),
       [i16 (d0 + offset), d1, d2, d3, d4, d5, i16 (d6 + offset),
        d7, d8, d9, d10, d11]) := by
  simp [weightedAverage, lget, lset, kNumChannels, i32_idem]

/-- Claim C9 counterexample: on four full-scale samples the Go
`calculateEnergy` applies its overflow guard only after the whole 4-sample
block, so the returned running sum exceeds 0x40000000 and differs from the
per-sample-guarded accumulation the claim describes. -/
theorem c9_cex :
    calculateEnergy [32767, 32767, 32767, 32767] 4 ≠
      calculateEnergyPerSample [32767, 32767, 32767, 32767] 0 0 ∧
    (calculateEnergy [32767, 32767, 32767, 32767] 4).1 > 0x40000000 := by decide

/-- Claim C9 (amended): `calculateEnergy` accumulates the squared samples
in unrolled blocks of four with one overflow guard per block (and one per
sample only in the short tail), as captured by the `ceBlocks` reading. -/
theorem c9_blockwise_guard (v : List Int) :
    calculateEnergy v v.length = ceBlocks v 0 0 := by
  have h := ceMain_eq v v.length 0 0 0 (by omega)
  simpa [calculateEnergy] using h

/-- Claim C10 witness: a 161-byte zero buffer at 8 kHz (n = 80) decodes to
the same samples as its 160-byte prefix. -/
theorem c10_odd_length_witness :
    (List.replicate 161 (0 : Int)).length = 2 * 80 + 1 ∧
    bytesToInt16 (List.replicate 161 0) =
      bytesToInt16 ((List.replicate 161 (0 : Int)).take (2 * 80)) :=
  ⟨by simp, (c10_odd_length ((NewVad 0).getD createVadInst)
    (List.replicate 161 0) 8000 80 (by decide) (by simp) (by decide)).2.2⟩

set_option maxRecDepth 100000 in
set_option maxHeartbeats 10000000 in
/-- Claim C1 (code bug): the port of `resample48khzTo32khz` stores the
polyphase accumulator without the final `>> 15` normalization, so on an
all-zero input block every output sample is the rounding constant 16384
instead of 0.  Through the 48 kHz path this bias becomes a large DC offset
on resampled silence, the energy gate is cleared and `IsSpeech` returns
`true` on a frame of all-zero bytes at 48 kHz, against the specification.
At 8 kHz, which does not use this resampler, a minimal all-zero frame
correctly returns `false` (second conjunct). -/
theorem c1_silence_48khz :
    resample48khzTo32khz (List.replicate 240 0) 80 = List.replicate 160 16384 ∧
    (IsSpeech ((NewVad 0).getD createVadInst) (List.replicate 160 0) 8000).map
      Prod.fst = some false := by
  refine ⟨by decide, by decide⟩
end Webrtcvad
